import Mathlib

/-!
# Cookie Preference Manager: classification and enforcement

A shallow embedding of the cookie classification pipeline of `src/content.js`
(`classifyCookie`, `shouldDeleteCookie`, the cleanup passes) and of
`src/background.js`: the enforcement side (`deleteCookieViaAPI` with its attempt
map and blocklist, the recreation listener, the periodic sweep), the review
queue, the external classifier call `classifyWithAI` with its prompt, and the
activity log; and of the consent prompt handling of `src/content.js`: the
keyword matcher `findButtonByKeywords`, the locator (`findBannerElement`,
`isLikelyBanner`) and the resolver (`checkForBanner`, `safeClick`,
`handleMultiStepConsent`, `clickAppropriateButton`, `hideBannerWithCSS`).

Conventions of the embedding.

* JavaScript strings that the code inspects (cookie names, domains, the page
  cookie string, block keys) are lists of characters; `startsWith`, `endsWith`
  and `includes` are prefix, suffix and contiguous-sublist tests.
* Enumerated tokens the code only compares for equality (category, source,
  qualitative confidence) are `String`s with the literal text of the source.
* `toLowerCase` is the ASCII lower-casing; it agrees with JavaScript on ASCII
  text, which is what cookie names (RFC 6265 tokens) and host names are.
* Ambient reads are explicit arguments: `document.cookie`, `Date.now()`,
  `window.location.hostname`, the open tabs, and the answers of the browser
  cookie store and of the classifier endpoint.
* `chrome.storage.local` is a state whose reads and writes resolve; the stored
  queue and logs are passed in and returned.
* The document is data: a `Page` answers the selector queries of the content
  script, with the elements, controls and toggles carrying the properties the
  code reads. The text of a container need not be ASCII: its lower-cased text
  and markup are given with it as the builtin produces them, and `utf16Length`
  counts code units as the property `length` does. What the resolver does to
  the page is appended to a trace, each action with the value of `hasActed` at
  that moment; the state of the checkboxes is read as the clicks made so far
  leave it. The `sleep` calls between the steps are not modelled.
* Builtins whose result the code only compares are taken as given: the
  confidence of a classifier answer is the number `parseFloat` reads from it.
-/

namespace CookiePM

/-! ## JavaScript string primitives -/

/-- Text inspected by the code, as a list of characters. -/
abbrev Str := List Char

/-- The method `String.prototype.startsWith`. -/
def startsWith (s pat : Str) : Bool := pat.isPrefixOf s

/-- The method `String.prototype.endsWith`. -/
def endsWith (s pat : Str) : Bool := pat.isSuffixOf s

/-- The method `String.prototype.includes`: `pat` occurs contiguously in `s`. -/
def includes (s pat : Str) : Bool :=
  match s with
  | [] => pat.isEmpty
  | c :: cs => pat.isPrefixOf (c :: cs) || includes cs pat

/-- The method `String.prototype.toLowerCase`, on ASCII text. -/
def toLowerCase (s : Str) : Str := s.map Char.toLower

/-- The method `String.prototype.split` for a one-character separator: the
result always has at least one segment. -/
def split (sep : Char) : Str → List Str
  | [] => [[]]
  | c :: cs =>
    if c = sep then [] :: split sep cs
    else
      match split sep cs with
      | [] => [[c]]
      | seg :: rest => (c :: seg) :: rest

/-- The characters removed by `String.prototype.trim`: ECMAScript white space
and line terminators. -/
def isTrimChar (c : Char) : Bool :=
  let n := c.toNat
  n = 0x09 || n = 0x0A || n = 0x0B || n = 0x0C || n = 0x0D || n = 0x20 ||
  n = 0xA0 || n = 0x1680 || (0x2000 ≤ n && n ≤ 0x200A) || n = 0x2028 ||
  n = 0x2029 || n = 0x202F || n = 0x205F || n = 0x3000 || n = 0xFEFF

/-- The method `String.prototype.trim`. -/
def trim (s : Str) : Str :=
  ((s.dropWhile isTrimChar).reverse.dropWhile isTrimChar).reverse

/-! ## Pattern tables of `content.js` -/

/-- The table `COOKIE_PATTERNS.analytics`. -/
def COOKIE_PATTERNS.analytics : List Str := List.map String.toList [
  "_ga", "_gid", "_gat", "_gaexp", "_gac", "__utma", "__utmb", "__utmc", "__utmz", "__utmt", "_gat_gtag_",
  "_hjid", "_hjSession", "_hjSessionUser", "_hjIncludedInSample", "_hjIncludedInSession",
  "_hjAbsoluteSessionInProgress", "_hjTLDTest",
  "s_ppvl", "s_ppv", "s_cc", "s_sq", "s_vi", "s_ecid", "AMCV_", "AMCVS_",
  "amplitude_", "amplitude_id",
  "mp_",
  "ajs_user_id", "ajs_anonymous_id", "ajs_",
  "heap_",
  "__hstc", "__hssrc", "__hssc", "hubspotutk",
  "matomo", "_pk_id", "_pk_ses",
  "_chartbeat", "_cb",
  "_parsely",
  "_clck", "_clsk",
  "_scid", "_scid_r",
  "_uetsid", "_uetvid",
  "vuid",
  "_ym_uid", "_ym_d",
  "analytics", "utm_", "vid_", "visitor_id",
  "__qca", "mc",
  "dtcookie", "dtlatc", "dtpc", "rxvisitor", "rxvt", "utag_main",
  "_hp2_", "_hp2_id", "_hp2_ses", "_hp2_props",
  "intercom-",
  "ckns_sa", "ckns_performance",
  "_sp_id", "_sp_ses"]

/-- The table `COOKIE_PATTERNS.advertising`. -/
def COOKIE_PATTERNS.advertising : List Str := List.map String.toList [
  "_fbp", "_fbc", "fr", "sb", "datr",
  "IDE", "DSID", "ANID", "NID", "FLC", "AID", "TAID", "1P_JAR",
  "__Secure-", "__Host-", "__gads", "__gac", "__gads_",
  "_gcl_au", "_gcl_aw", "_gcl_dc", "_gcl_gb", "_gcl",
  "_ttp", "tt_webid", "ttwid", "tt_appinfo", "_tt_enable_cookie", "ttclid",
  "personalization_id", "guest_id", "gt",
  "bcookie", "li_gc", "liap", "lidc",
  "_sctr", "sc_at",
  "_pin_unauth", "_pinterest",
  "YSC", "VISITOR_INFO1_LIVE", "yt-remote-",
  "MUID", "MR", "SRM_B",
  "uuid", "uuid2", "uuidc", "uid", "cid", "vid",
  "criteo",
  "ad_", "ads_", "ads_id", "pixel", "track", "cmp",
  "cto_", "permutive", "ad-id",
  "test_cookie",
  "anj",
  "B", "A3",
  "ckns_ads"]

/-- The table `COOKIE_PATTERNS.testing`. -/
def COOKIE_PATTERNS.testing : List Str := List.map String.toList [
  "optimizely", "optimizelyEndUserId", "optimizelySegments", "optimizelyBuckets",
  "_opt_awcid", "_opt_awmid", "_opt_expid", "_opt_utmc",
  "__pr", "_vis_opt_exp_", "_vis_opt_s", "_vwo_ds", "_vis_opt_test_slice",
  "experiment", "exp_", "variant", "split", "split_tester",
  "test_group", "bucket", "ab_", "abt",
  "mbox",
  "FastAB", "iter_id"]

/-- The table `COOKIE_PATTERNS.personalization`. -/
def COOKIE_PATTERNS.personalization : List Str := List.map String.toList [
  "pref", "prefs", "theme", "lang", "language", "locale",
  "currency", "timezone", "tz", "view", "layout", "mode",
  "ui_", "user_settings", "dark_mode", "color_scheme",
  "ct0"]

/-- The table `COOKIE_PATTERNS.essential`. -/
def COOKIE_PATTERNS.essential : List Str := List.map String.toList [
  "session", "sessionid", "session-id", "session-token", "_session_id",
  "sess", "sid", "s_id", "connect.sid",
  "jsessionid", "phpsessid", "asp.net_sessionid",
  "csrf", "csrftoken", "xsrf", "_csrf", "_xsrf",
  "auth", "auth_token", "token", "jwt", "access_token", "refresh_token",
  "sso_", "remember_me", "appid", "laravel_session", "_secure_session_id",
  "cart", "basket", "checkout", "cart_sig", "cart_ts",
  "login", "logged_in", "user", "uid", "ubid", "remember", "persistent",
  "__cfruid", "__cfduid", "cf_clearance", "cf_", "_cfuvid",
  "_abck", "ak_bmsc", "bm_sv", "bm_mi", "bm_sz", "akavpau_userid",
  "incap_ses_", "visid_incap_",
  "_px", "_px2", "_px3", "_pxvid",
  "challenge_", "bot_", "secure_",
  "cookie_consent", "cookieConsent", "cookie_policy",
  "OptanonConsent", "OptanonAlertBoxClosed", "CookieConsent",
  "euconsent", "euconsent-v2", "truste", "cmpconsent",
  "ccpa", "gdpr", "consent_", "ckns_policy", "ckns_explicit",
  "ckns_", "eupubconsent",
  "_shopify_y", "_shopify_s", "_shopify_sa_p", "_shopify_sa_t",
  "secure_customer_sig", "__stripe_mid", "__stripe_sid", "__stripe_orig_props",
  "GU_U", "gu-cmp", "nyt-a", "nyt-gdpr", "nyt-purr", "countryCode",
  "usprivacy", "BBC-UID", "ckns_orb_nonce",
  "at-main", "sess-at-main", "x-main", "session-id-time",
  "aws-ubid-main", "sst-main", "lc-main", "sp-cdn", "regStatus",
  "i18n-prefs", "skin", "LV_CART", "LV_SESSION", "datadome",
  "sgcookie", "NYT-T"]

/-- The table `COOKIE_PATTERNS.social`. -/
def COOKIE_PATTERNS.social : List Str := List.map String.toList [
  "social", "share", "twitter_", "twtr", "li_", "linkedin",
  "pinterest", "_pinterest", "__atuvc", "__atuvs", "__stid"]

/-- The list `THIRD_PARTY_DOMAINS` declared inside `classifyCookie`. -/
def THIRD_PARTY_DOMAINS : List Str := List.map String.toList [
  "doubleclick.net", "google-analytics.com", "facebook.com", "facebook.net",
  "tiktok.com", "twitter.com", "linkedin.com", "quantserve.com",
  "scorecardresearch.com", "adsrvr.org", "adnxs.com", "criteo.com",
  "outbrain.com", "taboola.com", "pubmatic.com", "rubiconproject.com",
  "openx.net", "contextweb.com", "advertising.com", "turn.com",
  "serving-sys.com", "cdn.segment.com", "cdn.mxpnl.com", "hotjar.com", "clarity.ms"]

/-! ## Classification (`content.js`) -/

/-- The object returned by `classifyCookie`. -/
structure Classification where
  category : String
  source : String
  confidence : String
deriving DecidableEq, Repr

/-- The persisted preference set read by the content script. -/
structure Prefs where
  enabled : Bool
  safeMode : Bool
  aiEnabled : Bool
  allowAnalytics : Bool
  allowAdvertising : Bool
  allowPersonalization : Bool
deriving DecidableEq, Repr

/-- The test `list.some(pattern => nameLower.includes(pattern))`. -/
def somePatternIn (patterns : List Str) (nameLower : Str) : Bool :=
  patterns.any (fun pattern => includes nameLower pattern)

/-- The entry of the page cookie string that `classifyCookie` looks up:
`document.cookie.split(';').find(c => c.trim().startsWith(cookieName + '='))`. -/
def findCookieEntry (documentCookie cookieName : Str) : Option Str :=
  (split ';' documentCookie).find? (fun c => startsWith (trim c) (cookieName ++ ['=']))

/-- The JWT test of `classifyCookie` (priority 3): an entry is found, its
piece `split('=')[1]` exists, is non-empty and starts with `eyJ`. -/
def hasJwtValue (documentCookie cookieName : Str) : Bool :=
  match findCookieEntry documentCookie cookieName with
  | none => false
  | some cookieValue =>
    if cookieValue.isEmpty then false
    else
      match (split '=' cookieValue)[1]? with
      | none => false
      | some value => !value.isEmpty && startsWith value "eyJ".toList

/-- The function `classifyCookie(cookieName, cookieDomain = '')`; the page
cookie string `document.cookie` it reads is the first argument. -/
def classifyCookie (documentCookie : Str) (cookieName : Str) (cookieDomain : Str := []) :
    Classification :=
  let nameLower := toLowerCase cookieName
  let domainLower := toLowerCase cookieDomain
  if startsWith nameLower "analytics_".toList || startsWith nameLower "a_".toList then
    ⟨"analytics", "naming_convention", "high"⟩
  else if startsWith nameLower "ad_".toList || startsWith nameLower "advertising_".toList then
    ⟨"advertising", "naming_convention", "high"⟩
  else if startsWith nameLower "essential_".toList || startsWith nameLower "e_".toList then
    ⟨"essential", "naming_convention", "high"⟩
  else if startsWith nameLower "personalization_".toList || startsWith nameLower "p_".toList then
    ⟨"personalization", "naming_convention", "high"⟩
  else if !domainLower.isEmpty &&
      THIRD_PARTY_DOMAINS.any (fun domain => includes domainLower domain) then
    ⟨"advertising", "third_party_domain", "high"⟩
  else if hasJwtValue documentCookie cookieName then
    ⟨"essential", "jwt_pattern", "high"⟩
  else if somePatternIn COOKIE_PATTERNS.essential nameLower then
    ⟨"essential", "pattern", "high"⟩
  else if somePatternIn COOKIE_PATTERNS.analytics nameLower then
    ⟨"analytics", "pattern", "high"⟩
  else if somePatternIn COOKIE_PATTERNS.advertising nameLower then
    ⟨"advertising", "pattern", "high"⟩
  else if somePatternIn COOKIE_PATTERNS.testing nameLower then
    ⟨"analytics", "pattern_testing", "medium"⟩
  else if somePatternIn COOKIE_PATTERNS.personalization nameLower then
    ⟨"personalization", "pattern", "medium"⟩
  else if somePatternIn COOKIE_PATTERNS.social nameLower then
    ⟨"social", "pattern", "medium"⟩
  else
    ⟨"unknown", "default", "low"⟩

/-- The function `shouldDeleteCookie(category, prefs)`. -/
def shouldDeleteCookie (category : String) (prefs : Prefs) : Bool :=
  if category = "essential" then false
  else if category = "analytics" then !prefs.allowAnalytics
  else if category = "advertising" then !prefs.allowAdvertising
  else if category = "personalization" then !prefs.allowPersonalization
  else if category = "social" then !prefs.allowPersonalization
  else if category = "unknown" then false
  else false

/-- The function `shouldDeleteCookieByCategory(category, prefs)`. -/
def shouldDeleteCookieByCategory (category : String) (prefs : Prefs) : Bool :=
  shouldDeleteCookie category prefs

/-! ## Cleanup passes (`content.js`) -/

/-- The answer of the external classifier as `classifyWithAI` returns it:
`{category, confidence, reasoning}` with a numeric confidence. -/
structure AIResult where
  category : String
  confidence : ℚ
  reasoning : Str
deriving DecidableEq

/-- The fallback `classifyWithAI` returns from its `catch` block when the
classifier fails: `{category: 'personalization', confidence: 0.3, ...}`. -/
def aiFailureFallback (message : Str) : AIResult :=
  ⟨"personalization", 0.3, "AI failed: ".toList ++ message⟩

/-- The record a cleanup pass pushes on `uncertainCookies`, the list it sends
in the `ADD_TO_REVIEW_QUEUE` message. -/
structure UncertainCookie where
  name : Str
  domain : Str
  value : Str
  aiCategory : String
  confidence : ℚ
  reasoning : Str
  source : String
deriving DecidableEq

/-- One declared cookie of a site manifest. -/
structure ManifestCookie where
  name : Str
  category : String
  vendor : Str
  purpose : Str
deriving DecidableEq

/-- What a cleanup pass does: the names passed to `deleteCookie`, in order,
and the `uncertainCookies` list sent to the review queue. -/
structure CleanupOutcome where
  deleted : List Str
  uncertainCookies : List UncertainCookie
deriving DecidableEq

/-- The answer to a `CLASSIFY_WITH_AI` message for (name, domain, value);
`none` stands for a missing answer, an answer with an `error` field, or a
failed message, all of which the passes treat alike. -/
abbrev Classifier := Str → Str → Str → Option AIResult

/-- The expression `document.cookie.split(';').map(c => c.trim()).filter(c => c)`. -/
def allCookies (documentCookie : Str) : List Str :=
  ((split ';' documentCookie).map trim).filter (fun c => !c.isEmpty)

/-- The expression `cookie.split('=')[0].trim()`. -/
def cookieNameOf (cookie : Str) : Str :=
  trim ((split '=' cookie).headD [])

/-- The expression `cookie.split('=')[1] || ''`. -/
def cookieValueOf (cookie : Str) : Str :=
  ((split '=' cookie)[1]?).getD []

/-- The body of the loop of `cleanupWithAI` for one entry of `allCookies`:
the name deleted (if any) and the record queued for review (if any). -/
def cleanupWithAIStep (prefs : Prefs) (hostname documentCookie : Str) (ai : Classifier)
    (cookie : Str) : Option Str × Option UncertainCookie :=
  let cookieName := cookieNameOf cookie
  let cookieValue := cookieValueOf cookie
  let cookieDomain := hostname
  let category := classifyCookie documentCookie cookieName cookieDomain
  let escalate : Bool :=
    !(category.source = "database") &&
    !(category.source = "pattern" || category.source = "pattern_testing") &&
    !(category.source = "naming_convention") &&
    !(category.source = "third_party_domain") &&
    category.category = "unknown"
  let (finalCategory, queued) : String × Option UncertainCookie :=
    if escalate then
      match ai cookieName cookieDomain cookieValue with
      | some aiResult =>
        if aiResult.confidence < 0.8 then
          (aiResult.category,
            some ⟨cookieName, cookieDomain, cookieValue, aiResult.category,
              aiResult.confidence, aiResult.reasoning, "ai"⟩)
        else (aiResult.category, none)
      | none => (category.category, none)
    else (category.category, none)
  let shouldDelete := shouldDeleteCookie finalCategory prefs
  (if shouldDelete then some cookieName else none, queued)

/-- Collect the per-entry results of a pass. -/
def collectOutcome (steps : List (Option Str × Option UncertainCookie)) : CleanupOutcome :=
  ⟨steps.filterMap (fun r => r.1), steps.filterMap (fun r => r.2)⟩

/-- The function `cleanupWithAI(prefs)`, with the page cookie string, the
host name and the classifier answers as arguments. The cookie string is the
one read at the start of the pass; the writes of `deleteCookie` to
`document.cookie` during the pass are not fed back into later look-ups. -/
def cleanupWithAI (prefs : Prefs) (hostname documentCookie : Str) (ai : Classifier) :
    CleanupOutcome :=
  collectOutcome
    ((allCookies documentCookie).map (cleanupWithAIStep prefs hostname documentCookie ai))

/-- The body of the loop of `cleanupWithClassification` for one entry: the
name deleted, if any. -/
def cleanupWithClassificationStep (prefs : Prefs) (hostname documentCookie : Str)
    (cookie : Str) : Option Str :=
  let cookieName := cookieNameOf cookie
  let cookieDomain := hostname
  let category := classifyCookie documentCookie cookieName cookieDomain
  let shouldDelete := shouldDeleteCookie category.category prefs
  if shouldDelete then some cookieName else none

/-- The function `cleanupWithClassification(prefs)`: the names passed to
`deleteCookie`, in order. -/
def cleanupWithClassification (prefs : Prefs) (hostname documentCookie : Str) : List Str :=
  (allCookies documentCookie).filterMap
    (cleanupWithClassificationStep prefs hostname documentCookie)

/-- The body of the loop of `cleanupWithManifest` for one entry. -/
def cleanupWithManifestStep (manifestCookies : List ManifestCookie) (prefs : Prefs)
    (hostname : Str) (ai : Classifier) (cookie : Str) : Option Str × Option UncertainCookie :=
  let cookieName := cookieNameOf cookie
  let cookieValue := cookieValueOf cookie
  match manifestCookies.find? (fun c => c.name = cookieName) with
  | some cookieInfo =>
    if shouldDeleteCookieByCategory cookieInfo.category prefs then (some cookieName, none)
    else (none, none)
  | none =>
    if prefs.aiEnabled then
      match ai cookieName hostname cookieValue with
      | some aiResult =>
        if aiResult.confidence < 0.8 then
          (none, some ⟨cookieName, hostname, cookieValue, aiResult.category,
            aiResult.confidence, aiResult.reasoning, "ai_undeclared"⟩)
        else if shouldDeleteCookie aiResult.category prefs then (some cookieName, none)
        else (none, none)
      | none => (none, none)
    else (none, none)

/-- The function `cleanupWithManifest(manifest, prefs)`. -/
def cleanupWithManifest (manifestCookies : List ManifestCookie) (prefs : Prefs)
    (hostname documentCookie : Str) (ai : Classifier) : CleanupOutcome :=
  collectOutcome
    ((allCookies documentCookie).map (cleanupWithManifestStep manifestCookies prefs hostname ai))

/-! ## Enforcement (`background.js`) -/

/-- The constant `ATTEMPT_COOLDOWN` (milliseconds). -/
def ATTEMPT_COOLDOWN : Int := 30000

/-- The constant `MAX_DELETION_ATTEMPTS`. -/
def MAX_DELETION_ATTEMPTS : Nat := 3

/-- The constant `BLOCKLIST_CLEANUP_INTERVAL` (milliseconds). -/
def BLOCKLIST_CLEANUP_INTERVAL : Int := 300000

/-- The fields of a `chrome.cookies.Cookie` that the code reads. -/
structure Cookie where
  name : Str
  domain : Str
  path : Str
  secure : Bool
  storeId : Str
deriving DecidableEq

/-- A value of the map `recentlyAttempted`. -/
structure AttemptData where
  timestamp : Int
  attempts : Nat
deriving DecidableEq

/-- The mutable globals of the background script: the set `blockedCookies`
and the map `recentlyAttempted`, both in insertion order. -/
structure BgState where
  blockedCookies : List Str
  recentlyAttempted : List (Str × AttemptData)
deriving DecidableEq

/-- The method `Map.prototype.get`. -/
def mapGet (m : List (Str × AttemptData)) (key : Str) : Option AttemptData :=
  (m.find? (fun e => e.1 = key)).map (fun e => e.2)

/-- The method `Map.prototype.set`: an existing key keeps its position. -/
def mapSet (m : List (Str × AttemptData)) (key : Str) (v : AttemptData) :
    List (Str × AttemptData) :=
  if m.any (fun e => e.1 = key) then m.map (fun e => if e.1 = key then (key, v) else e)
  else m ++ [(key, v)]

/-- The method `Set.prototype.add`. -/
def setAdd (s : List Str) (key : Str) : List Str :=
  if key ∈ s then s else s ++ [key]

/-- The argument of `chrome.cookies.remove`. -/
structure RemoveDetails where
  url : Str
  name : Str
  storeId : Str
deriving DecidableEq

/-- The ways a `chrome.cookies.remove` call ends: it resolves to the removed
cookie, resolves to `null`, or rejects. -/
inductive RemoveOutcome where
  | removed
  | notRemoved
  | threw
deriving DecidableEq

/-- A call on the browser cookie store. -/
inductive StorageOp where
  | getAll (name : Str)
  | remove (details : RemoveDetails)
deriving DecidableEq

/-- The browser cookie store as the code meets it: the stored cookies,
whether `chrome.cookies.getAll` rejects, and how the i-th removal of a call
(with the given details) ends. -/
structure CookieStore where
  cookies : List Cookie
  getAllRejects : Bool
  removeOutcome : Nat → RemoveDetails → RemoveOutcome

/-- The template `domain:cookieName` of `blockKey`. -/
def blockKey (domain cookieName : Str) : Str := domain ++ [':'] ++ cookieName

/-- The expression `cookie.domain.startsWith('.') ? cookie.domain.substring(1) : cookie.domain`. -/
def stripLeadingDot (domain : Str) : Str :=
  if startsWith domain ['.'] then domain.drop 1 else domain

/-- The filter predicate of `matchingCookies`. -/
def domainMatches (domain : Str) (cookie : Cookie) : Bool :=
  let cookieDomain := stripLeadingDot cookie.domain
  endsWith domain cookieDomain || endsWith cookieDomain domain || domain = cookieDomain

/-- The removal request built for a cookie: scheme from its secure flag, its
own domain (dot stripped) and path, its own store. -/
def removeDetailsOf (cookie : Cookie) : RemoveDetails :=
  let protocol := if cookie.secure then "https://".toList else "http://".toList
  let cookieDomain := stripLeadingDot cookie.domain
  ⟨protocol ++ cookieDomain ++ cookie.path, cookie.name, cookie.storeId⟩

/-- The result of `chrome.cookies.getAll(\x7b name \x7d)` when it resolves. -/
def cookiesNamed (store : CookieStore) (cookieName : Str) : List Cookie :=
  store.cookies.filter (fun c => c.name = cookieName)

/-- The list `matchingCookies`. -/
def matchingCookies (store : CookieStore) (cookieName domain : Str) : List Cookie :=
  (cookiesNamed store cookieName).filter (domainMatches domain)

/-- The removal loop over `matchingCookies`, from position `i`: the number of
successes and the removals issued. -/
def removeLoop (store : CookieStore) : Nat → List Cookie → Nat × List StorageOp
  | _, [] => (0, [])
  | i, cookie :: rest =>
    let details := removeDetailsOf cookie
    let r := removeLoop store (i + 1) rest
    ((if store.removeOutcome i details = RemoveOutcome.removed then 1 else 0) + r.1,
      StorageOp.remove details :: r.2)

/-- The guard at the head of `deleteCookieViaAPI`: a record exists and the
call is within the cooldown or at the attempt ceiling. -/
def isBlocked (st : BgState) (now : Int) (key : Str) : Bool :=
  match mapGet st.recentlyAttempted key with
  | some attemptData =>
    if now - attemptData.timestamp < ATTEMPT_COOLDOWN then true
    else if attemptData.attempts ≥ MAX_DELETION_ATTEMPTS then true
    else false
  | none => false

/-- The record written after an attempt: `(attemptData?.attempts || 0) + 1`. -/
def nextAttempt (st : BgState) (now : Int) (key : Str) : AttemptData :=
  ⟨now, ((mapGet st.recentlyAttempted key).map (fun d => d.attempts)).getD 0 + 1⟩

/-- The function `deleteCookieViaAPI(cookieName, url, domain)` called at time
`now`: the returned flag, the new globals and the storage calls issued. -/
def deleteCookieViaAPI (st : BgState) (store : CookieStore) (now : Int)
    (cookieName url domain : Str) : Bool × BgState × List StorageOp :=
  let key := blockKey domain cookieName
  if isBlocked st now key then (false, st, [])
  else if store.getAllRejects then (false, st, [StorageOp.getAll cookieName])
  else
    let matching := matchingCookies store cookieName domain
    let tracked : BgState :=
      ⟨st.blockedCookies, mapSet st.recentlyAttempted key (nextAttempt st now key)⟩
    if matching.isEmpty then (false, tracked, [StorageOp.getAll cookieName])
    else
      let r := removeLoop store 0 matching
      if r.1 > 0 then
        (true, ⟨setAdd st.blockedCookies key, tracked.recentlyAttempted⟩,
          StorageOp.getAll cookieName :: r.2)
      else (false, tracked, StorageOp.getAll cookieName :: r.2)

/-! ## Vocabulary for the statements -/

/-- The lower-cased name starts with a naming-convention marker of a
non-essential category: `analytics_`, `a_`, `ad_`, `advertising_`,
`personalization_` or `p_`. -/
def trackingPrefixed (nameLower : Str) : Bool :=
  startsWith nameLower "analytics_".toList || startsWith nameLower "a_".toList ||
  startsWith nameLower "ad_".toList || startsWith nameLower "advertising_".toList ||
  startsWith nameLower "personalization_".toList || startsWith nameLower "p_".toList

/-- The lower-cased name starts with the essential marker `essential_` or `e_`. -/
def essentialPrefixed (nameLower : Str) : Bool :=
  startsWith nameLower "essential_".toList || startsWith nameLower "e_".toList

/-- The lower-cased domain contains an entry of `THIRD_PARTY_DOMAINS`. -/
def onThirdPartyList (domainLower : Str) : Bool :=
  THIRD_PARTY_DOMAINS.any (fun domain => includes domainLower domain)

/-- The keyword sets in the order the spec lists them, each with the category
it reports: essential, analytics, advertising, A/B-testing (reported as
analytics), personalization, social. -/
def keywordSetsInOrder : List (String × List Str) :=
  [("essential", COOKIE_PATTERNS.essential),
   ("analytics", COOKIE_PATTERNS.analytics),
   ("advertising", COOKIE_PATTERNS.advertising),
   ("analytics", COOKIE_PATTERNS.testing),
   ("personalization", COOKIE_PATTERNS.personalization),
   ("social", COOKIE_PATTERNS.social)]

/-- The category of the first keyword set, in the order of the spec, that has
a pattern occurring in the lower-cased name; `none` when no set matches. -/
def firstMatchingSet (nameLower : Str) : Option String :=
  (keywordSetsInOrder.find?
    (fun s => s.2.any (fun pattern => includes nameLower pattern))).map (fun s => s.1)

/-- The relation of the spec between a cookie domain and the target domain:
equal, or one is a subdomain of the other on a label boundary. -/
def relatedOnLabelBoundary (domain cookieDomain : Str) : Bool :=
  domain = cookieDomain || endsWith domain ('.' :: cookieDomain) ||
  endsWith cookieDomain ('.' :: domain)

/-- A cookie store whose `getAll` rejects. -/
def rejectingStore : CookieStore := ⟨[], true, fun _ _ => RemoveOutcome.threw⟩

/-- The globals of a freshly started background script. -/
def freshState : BgState := ⟨[], []⟩

/-- The call `deleteCookieViaAPI('_ga', 'https://example.com/', 'example.com')`
at time `now` against a store whose enumeration rejects. -/
def rejectedCall (st : BgState) (now : Int) : Bool × BgState × List StorageOp :=
  deleteCookieViaAPI st rejectingStore now "_ga".toList "https://example.com/".toList
    "example.com".toList

/-! ## Recreation listener and periodic sweep (`background.js`) -/

/-- The argument of the `chrome.cookies.onChanged` listener, as far as the
listener reads it. -/
structure ChangeInfo where
  removed : Bool
  cookie : Option Cookie
deriving DecidableEq

/-- The listener registered on `chrome.cookies.onChanged`: the removals it
issues for one change event. -/
def onCookieChanged (st : BgState) (changeInfo : ChangeInfo) : List StorageOp :=
  match changeInfo.cookie with
  | none => []
  | some cookie =>
    if !changeInfo.removed then
      let domain := stripLeadingDot cookie.domain
      let key := blockKey domain cookie.name
      if key ∈ st.blockedCookies then
        let protocol := if cookie.secure then "https://".toList else "http://".toList
        let cookieDomain := stripLeadingDot cookie.domain
        let deleteUrl := protocol ++ cookieDomain ++ cookie.path
        [StorageOp.remove ⟨deleteUrl, cookie.name, cookie.storeId⟩]
      else []
    else []

/-- The method `Map.prototype.delete`. -/
def mapDelete (m : List (Str × AttemptData)) (key : Str) : List (Str × AttemptData) :=
  m.filter (fun e => e.1 ≠ key)

/-- The method `Set.prototype.delete`. -/
def setDelete (s : List Str) (key : Str) : List Str :=
  s.filter (fun k => k ≠ key)

/-- The loop of the `setInterval` callback over the entries of
`recentlyAttempted`. -/
def sweepLoop (now : Int) : List (Str × AttemptData) → BgState → BgState
  | [], st => st
  | (key, data) :: rest, st =>
    if now - data.timestamp > BLOCKLIST_CLEANUP_INTERVAL then
      sweepLoop now rest ⟨setDelete st.blockedCookies key, mapDelete st.recentlyAttempted key⟩
    else sweepLoop now rest st

/-- The `setInterval` callback run at time `now`. -/
def sweep (st : BgState) (now : Int) : BgState :=
  sweepLoop now st.recentlyAttempted st

/-- The well-formedness of a JavaScript `Map`: no key occurs twice. -/
def UniqueKeys (m : List (Str × AttemptData)) : Prop :=
  (m.map (fun e => e.1)).Nodup

/-- The record of `key` exists and is older than the inactivity window at
time `now`. -/
def expiredAt (st : BgState) (now : Int) (key : Str) : Bool :=
  match mapGet st.recentlyAttempted key with
  | some data => decide (now - data.timestamp > BLOCKLIST_CLEANUP_INTERVAL)
  | none => false

/-! ## Review queue (`background.js`) -/

/-- The first argument of `addToReviewQueue`: an object with `name`, `domain`
and an optional `value`. -/
structure CookieArg where
  name : Str
  domain : Str
  value : Option Str
deriving DecidableEq

/-- The second argument of `addToReviewQueue`: an object with `category`,
`confidence`, an optional `reasoning` and a `source`. -/
structure ClassificationArg where
  category : String
  confidence : ℚ
  reasoning : Option Str
  source : String
deriving DecidableEq

/-- An element of the stored array `uncertainCookies`. -/
structure ReviewItem where
  id : Str
  cookieName : Str
  domain : Str
  value : Option Str
  category : String
  confidence : ℚ
  reasoning : Str
  source : String
  timestamp : Str
  status : String
  decidedAt : Option Str
deriving DecidableEq

/-- An element of the `cookies` array of an `ADD_TO_REVIEW_QUEUE` message:
either the flat record the cleanup passes build, or an object with the
properties `cookie` and `classification`. -/
inductive QueuePayload where
  | flat (record : UncertainCookie)
  | wrapped (cookie : CookieArg) (classification : ClassificationArg)
deriving DecidableEq

/-- The property read `cookieData.cookie`; the flat record has no such
property, so the read gives `undefined`. -/
def QueuePayload.cookie : QueuePayload → Option CookieArg
  | QueuePayload.flat _ => none
  | QueuePayload.wrapped cookie _ => some cookie

/-- The property read `cookieData.classification`; `undefined` on the flat
record. -/
def QueuePayload.classification : QueuePayload → Option ClassificationArg
  | QueuePayload.flat _ => none
  | QueuePayload.wrapped _ classification => some classification

/-- The message of the `TypeError` raised by a property read on `undefined`. -/
def undefinedReadError : Str := "Cannot read properties of undefined".toList

/-- The expression `queue.filter(item => item.status === 'pending').length`. -/
def pendingCount (queue : List ReviewItem) : Nat :=
  (queue.filter (fun item => item.status = "pending")).length

/-- The duplicate test of `addToReviewQueue`: a pending item with the same
cookie name and domain. -/
def hasPending (queue : List ReviewItem) (name domain : Str) : Bool :=
  (queue.find? (fun item =>
    item.cookieName = name && item.domain = domain && item.status = "pending")).isSome

/-- The function `addToReviewQueue(cookie, classification)` on the stored queue;
`now` is `Date.now()` and `isoNow` is `new Date().toISOString()`. An argument
that is `undefined` is `none`: building `reviewItem` then raises a `TypeError`
before the storage is touched. The storage calls are taken to resolve. -/
def addToReviewQueue (queue : List ReviewItem) (now : Nat) (isoNow : Str)
    (cookie : Option CookieArg) (classification : Option ClassificationArg) :
    Except Str (List ReviewItem) :=
  match cookie, classification with
  | none, _ => Except.error undefinedReadError
  | some _, none => Except.error undefinedReadError
  | some cookie, some classification =>
    let reviewItem : ReviewItem :=
      { id := cookie.domain ++ ['_'] ++ cookie.name ++ ['_'] ++ (Nat.repr now).toList
        cookieName := cookie.name
        domain := cookie.domain
        value := cookie.value.map (fun v => v.take 100)
        category := classification.category
        confidence := classification.confidence
        reasoning :=
          match classification.reasoning with
          | some r => if r.isEmpty then "AI analysis based on cookie name and domain".toList else r
          | none => "AI analysis based on cookie name and domain".toList
        source := classification.source
        timestamp := isoNow
        status := "pending"
        decidedAt := none }
    if hasPending queue cookie.name cookie.domain then Except.ok queue
    else Except.ok (queue ++ [reviewItem])

/-- The function `addCookiesToReviewQueue(cookies)`: the error that rejects the
call, if any, and the stored queue afterwards. -/
def addCookiesToReviewQueue (queue : List ReviewItem) (now : Nat) (isoNow : Str) :
    List QueuePayload → Option Str × List ReviewItem
  | [] => (none, queue)
  | cookieData :: rest =>
    match addToReviewQueue queue now isoNow cookieData.cookie cookieData.classification with
    | Except.error e => (some e, queue)
    | Except.ok queue2 => addCookiesToReviewQueue queue2 now isoNow rest

/-- The `ADD_TO_REVIEW_QUEUE` branch of the message listener: the `success`
flag of the response and the stored queue afterwards. -/
def handleAddToReviewQueue (queue : List ReviewItem) (now : Nat) (isoNow : Str)
    (cookies : List QueuePayload) : Bool × List ReviewItem :=
  let r := addCookiesToReviewQueue queue now isoNow cookies
  (r.1.isNone, r.2)

/-- An open tab as `chrome.tabs.query` reports it: its `url`, if any, and the
host name `new URL(tab.url).hostname`. -/
structure Tab where
  url : Option Str
  hostname : Str
deriving DecidableEq

/-- The arguments of one call of `deleteCookieViaAPI`. -/
structure DeleteCall where
  cookieName : Str
  url : Str
  domain : Str
deriving DecidableEq

/-- The test of `handleCookieDecision` on a tab:
`tab.url && (tab.url.includes(item.domain) || item.domain.includes(hostname))`. -/
def tabMatches (item : ReviewItem) (tab : Tab) : Bool :=
  match tab.url with
  | none => false
  | some url => !url.isEmpty && (includes url item.domain || includes item.domain tab.hostname)

/-- The assignments `item.status = decision; item.decidedAt = ...` on the item
found by `queue.find(c => c.id === cookieId)`, the first with that id. -/
def markDecided (cookieId : Str) (decision : String) (isoNow : Str) :
    List ReviewItem → List ReviewItem
  | [] => []
  | item :: rest =>
    if item.id = cookieId then { item with status := decision, decidedAt := some isoNow } :: rest
    else item :: markDecided cookieId decision isoNow rest

/-- The function `handleCookieDecision(cookieId, decision)`: the stored queue
afterwards and the calls of `deleteCookieViaAPI` it makes, in order. -/
def handleCookieDecision (queue : List ReviewItem) (tabs : List Tab) (isoNow : Str)
    (cookieId : Str) (decision : String) : List ReviewItem × List DeleteCall :=
  match queue.find? (fun c => c.id = cookieId) with
  | none => (queue, [])
  | some item =>
    let deletions : List DeleteCall :=
      if decision = "delete" then
        tabs.filterMap (fun tab =>
          if tabMatches item tab then some ⟨item.cookieName, tab.url.getD [], item.domain⟩
          else none)
      else []
    (markDecided cookieId decision isoNow queue, deletions)

/-- The calls of `deleteCookieViaAPI` made one after the other, the i-th at
time `clock i`: the globals afterwards and the storage calls issued. -/
def runDeleteCalls (store : CookieStore) (clock : Nat → Int) :
    Nat → List DeleteCall → BgState → BgState × List StorageOp
  | _, [], st => (st, [])
  | i, call :: rest, st =>
    let r := deleteCookieViaAPI st store (clock i) call.cookieName call.url call.domain
    let r2 := runDeleteCalls store clock (i + 1) rest r.2.1
    (r2.1, r.2.2 ++ r2.2)

/-- The review item of scenario D as `addToReviewQueue` would store it: cookie
`xk_9f2` of `example.com`, proposed category analytics, confidence 0.55. -/
def sampleReviewItem : ReviewItem :=
  { id := "example.com_xk_9f2_1700000000000".toList
    cookieName := "xk_9f2".toList
    domain := "example.com".toList
    value := some "abc".toList
    category := "analytics"
    confidence := 0.55
    reasoning := "opaque identifier".toList
    source := "ai"
    timestamp := "2023-11-14T22:13:20.000Z".toList
    status := "pending"
    decidedAt := none }

/-- The flat record a cleanup pass builds for `xk_9f2` in scenario D. -/
def sampleUncertainCookie : UncertainCookie :=
  ⟨"xk_9f2".toList, "example.com".toList, "abc".toList, "analytics", 0.55,
    "opaque identifier".toList, "ai"⟩

/-! ## External classifier (`background.js`) -/

/-- A JavaScript number, with rationals for the finite values. -/
inductive JsNum where
  | nan
  | posInf
  | negInf
  | fin (q : ℚ)
deriving DecidableEq

/-- A JavaScript value as a field of the parsed classifier answer may hold it;
`object` stands for any object, an array included. -/
inductive JsVal where
  | undefined
  | null
  | bool (b : Bool)
  | num (x : JsNum)
  | str (s : Str)
  | object
deriving DecidableEq

/-- The fields of an object `JSON.parse(aiResponse)` as `classifyWithAI` reads
them. `confidence` is the number `parseFloat(result.confidence)`: the builtin
gives `NaN` for a field that is missing, `null`, a boolean, an object or text
without a leading number, and the number itself for a number. -/
structure ParsedObject where
  category : JsVal
  confidence : JsNum
  reasoning : Str
deriving DecidableEq

/-- A value `JSON.parse` yields that is not an object and not `null`: a number,
a string or a boolean. -/
inductive Primitive where
  | number (x : JsNum)
  | string (s : Str)
  | boolean (b : Bool)
deriving DecidableEq

/-- The value `JSON.parse(aiResponse)`: an object or a primitive. (For the
answer `null` the first property read raises; that is an error outcome.) -/
inductive ParsedResponse where
  | object (fields : ParsedObject)
  | primitive (value : Primitive)
deriving DecidableEq

/-- The value `classifyWithAI` returns: a record with category, confidence and
reasoning, or a primitive, which has none of these properties. -/
inductive AIReturn where
  | record (result : AIResult)
  | primitive (value : Primitive)
deriving DecidableEq

/-- The property `category` of the returned value; `none` is `undefined`. -/
def AIReturn.category : AIReturn → Option String
  | AIReturn.record result => some result.category
  | AIReturn.primitive _ => none

/-- The property `confidence` of the returned value; `none` is `undefined`. -/
def AIReturn.confidence : AIReturn → Option ℚ
  | AIReturn.record result => some result.confidence
  | AIReturn.primitive _ => none

/-- The list `validCategories` of `classifyWithAI`. -/
def validCategories : List String :=
  ["essential", "analytics", "advertising", "personalization"]

/-- The category check: a value outside `validCategories` is replaced by
`personalization`. -/
def validatedCategory (category : JsVal) : String :=
  match category with
  | JsVal.str s => if String.mk s ∈ validCategories then String.mk s else "personalization"
  | _ => "personalization"

/-- The confidence check on `parseFloat(result.confidence)`:
`isNaN(c) || c < 0 || c > 1` gives 0.5. -/
def validatedConfidence (parsed : JsNum) : ℚ :=
  match parsed with
  | JsNum.nan => 0.5
  | JsNum.negInf => 0.5
  | JsNum.posInf => 0.5
  | JsNum.fin q => if q < 0 ∨ q > 1 then 0.5 else q

/-- The statements of `classifyWithAI` from the category check to
`return result`. On an object they overwrite the two properties. The script
has no `use strict` directive and no module syntax, so it runs in sloppy mode:
on a primitive the reads give `undefined`, the two property writes have no
effect, and the primitive itself is returned. -/
def validateResponse : ParsedResponse → AIReturn
  | ParsedResponse.object result =>
    AIReturn.record ⟨validatedCategory result.category,
      validatedConfidence result.confidence, result.reasoning⟩
  | ParsedResponse.primitive value => AIReturn.primitive value

/-- How one `fetch` of the classifier endpoint ends: the request fails, the
status is not OK (`textError` is the error of a rejected `response.text()`),
or the status is OK and the steps from `response.json()` on either raise (an
unreadable body, missing fields, text that is not JSON, the answer `null`) or
`JSON.parse` yields a value. -/
inductive FetchOutcome where
  | networkError (message : Str)
  | httpError (status : Nat) (textError : Option Str)
  | okBody (parsed : Except Str ParsedResponse)

/-- The constant `MAX_RETRIES` of `classifyWithAI`. -/
def MAX_RETRIES : Nat := 2

/-- The function `initializeAI()` when the classifier is not yet initialised:
it succeeds exactly when the probe request has an OK status. -/
def initializeAI (probe : FetchOutcome) : Bool :=
  match probe with
  | FetchOutcome.okBody _ => true
  | _ => false

/-- What a call of `classifyWithAI` leaves behind: the value returned, the flag
`aiInitialized`, the number of requests sent so far and the waits (in
milliseconds) before retries. -/
structure AICall where
  result : AIReturn
  aiInitialized : Bool
  requests : Nat
  waits : List Nat
deriving DecidableEq

/-- The function `classifyWithAI(cookieName, cookieDomain, cookieValue,
retryCount)`; `fetch i` is the outcome of the i-th request sent and `sent` the
number of requests sent before the call. Every exception raised inside the
function is caught by its `try` block, so a call always returns. -/
def classifyWithAI (fetch : Nat → FetchOutcome) (aiInitialized : Bool) (sent : Nat)
    (retryCount : Nat := 0) : AICall :=
  if !aiInitialized && !initializeAI (fetch sent) then
    ⟨AIReturn.record ⟨"functional", 0.3, "AI not available".toList⟩, false, sent + 1, []⟩
  else
    let sent1 := if aiInitialized then sent else sent + 1
    match fetch sent1 with
    | FetchOutcome.networkError message => ⟨AIReturn.record (aiFailureFallback message), true, sent1 + 1, []⟩
    | FetchOutcome.httpError status (some message) =>
      ⟨AIReturn.record (aiFailureFallback message), true, sent1 + 1, []⟩
    | FetchOutcome.httpError status none =>
      if h : status = 429 ∧ retryCount < MAX_RETRIES then
        let r := classifyWithAI fetch true (sent1 + 1) (retryCount + 1)
        ⟨r.result, r.aiInitialized, r.requests, 3000 :: r.waits⟩
      else ⟨AIReturn.record
          (aiFailureFallback ("API error: ".toList ++ (Nat.repr status).toList)), true,
        sent1 + 1, []⟩
    | FetchOutcome.okBody (Except.error message) =>
      ⟨AIReturn.record (aiFailureFallback message), true, sent1 + 1, []⟩
    | FetchOutcome.okBody (Except.ok result) => ⟨validateResponse result, true, sent1 + 1, []⟩
termination_by MAX_RETRIES - retryCount
decreasing_by
  omega

/-! ## Activity log (`background.js`) -/

/-- An entry of the activity log. -/
structure LogEntry where
  timestamp : Str
  domain : Str
  url : Str
  action : Str
  details : Str
deriving DecidableEq

/-- The two stored logs: `logs` for normal browsing and `incognito_logs`. -/
structure LogStorage where
  logs : List LogEntry
  incognito_logs : List LogEntry
deriving DecidableEq

/-- The function `handleLogAction(logEntry, isIncognito)` on the stored logs;
the storage calls are taken to resolve. -/
def handleLogAction (storage : LogStorage) (logEntry : LogEntry) (isIncognito : Bool) :
    LogStorage :=
  let logs := if isIncognito then storage.incognito_logs else storage.logs
  let logs := logEntry :: logs
  let logs := if logs.length > 1000 then logs.take 1000 else logs
  if isIncognito then { storage with incognito_logs := logs }
  else { storage with logs := logs }

/-! ## Banner keyword tables (`content.js`) -/

/-- The table `BANNER_KEYWORDS.containers`. -/
def BANNER_KEYWORDS.containers : List Str := List.map String.toList [
  "cookie", "consent", "gdpr", "privacy", "banner", "notice",
  "policy", "tracking", "ccpa", "compliance", "preferences"]

/-- The table `BANNER_KEYWORDS.rejectButtons`. -/
def BANNER_KEYWORDS.rejectButtons : List Str := List.map String.toList [
  "reject all", "reject", "deny all", "deny", "decline all", "decline",
  "refuse", "refuse all", "no thanks", "only necessary", "essential only",
  "necessary only", "no cookies", "opt out"]

/-- The table `BANNER_KEYWORDS.acceptButtons`. -/
def BANNER_KEYWORDS.acceptButtons : List Str := List.map String.toList [
  "accept all", "accept all cookies", "allow all", "allow all cookies",
  "accept", "allow", "agree", "agree and continue", "agree and close",
  "ok", "got it", "i understand", "continue", "i agree", "i accept",
  "accept cookies", "allow cookies", "consent", "yes", "enable all",
  "accept and close", "accept & close", "allow & continue", "understood",
  "acceptall", "allowall", "acceptallcookies", "allowallcookies",
  "accept all and close", "i agree to", "agree to all", "agree to cookies",
  "yes, i agree", "yes i agree", "accept everything", "allow everything"]

/-- The table `BANNER_KEYWORDS.manageButtons`. -/
def BANNER_KEYWORDS.manageButtons : List Str := List.map String.toList [
  "manage", "settings", "customize", "options",
  "cookie settings", "manage preferences", "more options",
  "set cookie preferences", "cookie preferences", "preferences",
  "confirm my choices", "save my choices", "confirm choices",
  "manage my preferences", "cookie options", "customize cookies"]

/-- The table `BANNER_KEYWORDS.excludeKeywords`. -/
def BANNER_KEYWORDS.excludeKeywords : List Str := List.map String.toList [
  "payment", "shipping", "checkout", "cart", "product", "search",
  "menu", "navigation", "login", "sign in", "register", "account",
  "facebook", "twitter", "linkedin", "instagram", "youtube",
  "pinterest", "whatsapp", "share", "follow", "tweet"]

/-! ## Page elements -/

/-- What `isVisible` reads of an element: three computed style values and the
offset size. -/
structure Box where
  display : String
  visibility : String
  opacity : String
  offsetWidth : Nat
  offsetHeight : Nat
deriving DecidableEq

/-- The function `isVisible(element)` for an element that is not null. -/
def isVisible (box : Box) : Bool :=
  box.display ≠ "none" && box.visibility ≠ "hidden" && box.opacity ≠ "0" &&
  box.offsetWidth > 0 && box.offsetHeight > 0

/-- An interactive element (button, link, element with a button role): `node`
tells DOM nodes apart, `ariaLabel` is `getAttribute('aria-label')`, and
`raises` says whether the event calls of `safeClick` on it raise. -/
structure Control where
  node : Nat
  box : Box
  textContent : Str
  innerText : Str
  ariaLabel : Option Str
  raises : Bool
deriving DecidableEq

/-- The class `\w` of a regular expression without the unicode flag. -/
def isWordChar (c : Char) : Bool :=
  ('a' ≤ c && c ≤ 'z') || ('A' ≤ c && c ≤ 'Z') || ('0' ≤ c && c ≤ '9') || c = '_'

/-- The replacement `.replace(/\s+/g, ' ')`: every run of white space becomes
one space; `inRun` says that the previous character was white space. -/
def collapseWhitespace (inRun : Bool) : Str → Str
  | [] => []
  | c :: cs =>
    if isTrimChar c then
      if inRun then collapseWhitespace true cs else ' ' :: collapseWhitespace true cs
    else c :: collapseWhitespace false cs

/-- The helper `normalize` of `findButtonByKeywords`: lower case, white space
runs collapsed, characters outside `\w` and `\s` removed, trimmed. -/
def normalize (text : Str) : Str :=
  trim ((collapseWhitespace false (toLowerCase text)).filter
    (fun c => isWordChar c || isTrimChar c))

/-- The test `BANNER_KEYWORDS.excludeKeywords.some(kw => text.includes(kw))`. -/
def hasExcludedKeyword (text : Str) : Bool :=
  BANNER_KEYWORDS.excludeKeywords.any (fun kw => includes text kw)

/-- Pass 1 of `findButtonByKeywords`: exact match of the normalised text or
label with a normalised keyword. -/
def keywordPass1 (keywords : List Str) : List Control → Option Control
  | [] => none
  | button :: rest =>
    if !isVisible button.box then keywordPass1 keywords rest
    else
      let text := normalize button.textContent
      let ariaLabel := normalize (button.ariaLabel.getD [])
      if hasExcludedKeyword text then keywordPass1 keywords rest
      else if keywords.any (fun keyword =>
          text = normalize keyword || ariaLabel = normalize keyword) then some button
      else keywordPass1 keywords rest

/-- Pass 2 of `findButtonByKeywords`: the normalised text starts with a
normalised keyword. -/
def keywordPass2 (keywords : List Str) : List Control → Option Control
  | [] => none
  | button :: rest =>
    if !isVisible button.box then keywordPass2 keywords rest
    else
      let text := normalize button.textContent
      if hasExcludedKeyword text then keywordPass2 keywords rest
      else if keywords.any (fun keyword => startsWith text (normalize keyword)) then some button
      else keywordPass2 keywords rest

/-- Pass 3 of `findButtonByKeywords`: the normalised text contains a keyword
and is shorter than four times the keyword, or the label contains it. -/
def keywordPass3 (keywords : List Str) : List Control → Option Control
  | [] => none
  | button :: rest =>
    if !isVisible button.box then keywordPass3 keywords rest
    else
      let text := normalize button.textContent
      let ariaLabel := normalize (button.ariaLabel.getD [])
      if BANNER_KEYWORDS.excludeKeywords.any
          (fun kw => includes text kw || includes ariaLabel kw) then keywordPass3 keywords rest
      else if keywords.any (fun keyword =>
          (includes text (normalize keyword) &&
            decide (text.length < (normalize keyword).length * 4)) ||
          includes ariaLabel (normalize keyword)) then some button
      else keywordPass3 keywords rest

/-- Pass 4 of `findButtonByKeywords`: for a non-empty text shorter than 25, all
words of a keyword occur in the text or in the inner text. -/
def keywordPass4 (keywords : List Str) : List Control → Option Control
  | [] => none
  | button :: rest =>
    if !isVisible button.box then keywordPass4 keywords rest
    else
      let text := normalize button.textContent
      let innerText := normalize button.innerText
      if text.length > 0 && text.length < 25 &&
          keywords.any (fun keyword =>
            (split ' ' (normalize keyword)).all
              (fun word => includes text word || includes innerText word) &&
            decide (text.length < 100)) then some button
      else keywordPass4 keywords rest

/-- The function `findButtonByKeywords(buttons, keywords)`. -/
def findButtonByKeywords (buttons : List Control) (keywords : List Str) : Option Control :=
  match keywordPass1 keywords buttons with
  | some button => some button
  | none =>
    match keywordPass2 keywords buttons with
    | some button => some button
    | none =>
      match keywordPass3 keywords buttons with
      | some button => some button
      | none => keywordPass4 keywords buttons

/-- A box that `isVisible` accepts. -/
def visibleBox : Box := ⟨"block", "visible", "1", 120, 40⟩

/-- A visible control with the given node number and text, without label. -/
def plainButton (node : Nat) (text : String) : Control :=
  ⟨node, visibleBox, text.toList, text.toList, none, false⟩

/-- A control that pass 1 is to return, in the words of the spec: visible, no
exclusion keyword in its normalised text, and normalised text or accessible
label equal to a normalised keyword. -/
def exactKeywordHit (keywords : List Str) (button : Control) : Bool :=
  isVisible button.box && !hasExcludedKeyword (normalize button.textContent) &&
  keywords.any (fun keyword =>
    normalize button.textContent = normalize keyword ||
    normalize (button.ariaLabel.getD []) = normalize keyword)

/-! ## Prompt locator (`content.js`) -/

/-- The property `length` of a JavaScript string: its number of UTF-16 code
units, two for a character outside the Basic Multilingual Plane. -/
def utf16Length (s : Str) : Nat :=
  (s.map (fun c => if c.toNat < 65536 then 1 else 2)).sum

/-- A candidate container: what `isLikelyBanner`, the resolver and
`hideBannerWithCSS` read of it. `lowerText` is `textContent.toLowerCase()` and
`lowerHTML` is `innerHTML.toLowerCase()`, as the builtin gives them for the
text of the page: outside ASCII the lower-cased text can have another length
than the text. `zIndex` is the computed `z-index`, `none` for
`auto`; `interactive` is the result of
`querySelectorAll('button, a[role="button"], input[type="button"], a, [role="button"]')`
on it and `roleButtons` that of
`querySelectorAll('button, a[role="button"], [role="button"]')`. -/
structure Element where
  node : Nat
  id : Str
  className : Str
  box : Box
  rectWidth : ℚ
  rectHeight : ℚ
  position : String
  zIndex : Option Int
  textContent : Str
  lowerText : Str
  lowerHTML : Str
  interactive : List Control
  roleButtons : List Control
deriving DecidableEq

/-- The test on an interactive descendant in `isLikelyBanner`: no exclusion
keyword in its lower-cased, trimmed text, and an accept, reject or manage
keyword in it. -/
def isConsentControl (elem : Control) : Bool :=
  let elemText := trim (toLowerCase elem.textContent)
  !hasExcludedKeyword elemText &&
  (BANNER_KEYWORDS.acceptButtons.any (fun kw => includes elemText kw) ||
   BANNER_KEYWORDS.rejectButtons.any (fun kw => includes elemText kw) ||
   BANNER_KEYWORDS.manageButtons.any (fun kw => includes elemText kw))

/-- The function `isLikelyBanner(element)`; `innerWidth` is
`window.innerWidth`. -/
def isLikelyBanner (innerWidth : ℚ) (element : Element) : Bool :=
  if !isVisible element.box then false
  else if element.rectWidth < 150 ∨ element.rectHeight < 40 then false
  else
    let isFixed := element.position = "fixed" || element.position = "sticky" ||
      element.position = "absolute"
    let isLarge := decide (element.rectWidth > innerWidth * 0.12)
    let zIndex := element.zIndex.getD 0
    let hasHighZIndex := decide (zIndex > 30)
    if !isFixed && !isLarge && !hasHighZIndex then false
    else
      let text := element.lowerText
      let html := element.lowerHTML
      let hasCookieKeyword := BANNER_KEYWORDS.containers.any
        (fun keyword => includes text keyword || includes html keyword)
      if !hasCookieKeyword then false
      else if utf16Length text < 20 then false
      else if hasExcludedKeyword text then false
      else if element.interactive.length = 0 then false
      else element.interactive.any isConsentControl

/-- An element matched by the selector of `handleConsentToggles`
(`input[type="checkbox"], [role="switch"], .toggle-switch, .slider`). `label`
is the text of the element `getToggleLabel` finds for it (`none` when there is
none); `checked` is its property `checked` when `handleConsentToggles` starts,
`none` for an element without that property (a label, a span), where the code
reads `undefined`; `ariaChecked` is its attribute `aria-checked`, taken not to
change during the loop; `flips` lists the nodes of the checkboxes whose
`checked` state a click on the element inverts: the checkbox itself for a
checkbox that is not disabled, the labelled checkbox for a label and for an
element inside a label. -/
structure Toggle where
  node : Nat
  label : Option Str
  checked : Option Bool
  ariaChecked : Option Str
  flips : List Nat
deriving DecidableEq

/-- The page as the content script queries it: the window width, the elements
`document.querySelectorAll` returns for a selector, the same for every shadow
root in document order, the control `document.querySelector` returns for a
selector of a consent platform, the buttons of the whole document, and, as the
document holds them after a manage control was clicked, the toggles
(`input[type="checkbox"], [role="switch"], .toggle-switch, .slider`) and the
controls matching `button, [role="button"]`. -/
structure Page where
  innerWidth : ℚ
  querySelectorAll : String → List Element
  shadowRoots : List (String → List Element)
  querySelectorControl : String → Option Control
  allButtons : List Control
  toggles : List Toggle
  saveCandidates : List Control

/-- The list `platformIds` of `findBannerElement`. -/
def platformIds : List String := [
  "#onetrust-banner-sdk", "#onetrust-consent-sdk", "#onetrust-pc-sdk",
  "#CybotCookiebotDialog", "#CookiebotWidget",
  "#qc-cmp2-ui",
  "#truste-consent-track",
  ".osano-cm-dialog",
  ".onetrust-pc-dark-filter", ".ot-sdk-container", "[data-onetrust-banner]"]

/-- The list `selectors` of `findBannerElement`. -/
def bannerSelectors : List String := [
  "[id*=\"cookie\"]", "[id*=\"consent\"]", "[id*=\"gdpr\"]", "[id*=\"privacy\"]",
  "[id*=\"banner\"]",
  "[class*=\"cookie\"]", "[class*=\"consent\"]", "[class*=\"gdpr\"]", "[class*=\"privacy\"]",
  "[class*=\"banner\"]",
  "[role=\"dialog\"][aria-label*=\"cookie\"]", "[role=\"dialog\"][aria-label*=\"consent\"]",
  "[role=\"dialog\"][aria-label*=\"privacy\"]",
  "[role=\"dialog\"]", "[role=\"alertdialog\"]",
  "[data-testid*=\"cookie\"]", "[data-testid*=\"consent\"]", "[data-testid*=\"privacy\"]",
  "[class*=\"onetrust\"]", "[class*=\"ot-sdk\"]", "[class*=\"optanon\"]"]

/-- Priority 1 of `findBannerElement`: the first platform selector whose first
match is visible gives that match, with no further test. -/
def findPlatformBanner (page : Page) : Option Element :=
  platformIds.findSome? (fun id =>
    match (page.querySelectorAll id).head? with
    | some el => if isVisible el.box then some el else none
    | none => none)

/-- Priorities 2 and 3 of `findBannerElement` on one root: the first match of
the first selector that has a match accepted by `isLikelyBanner`. -/
def findGenericBanner (innerWidth : ℚ) (root : String → List Element) : Option Element :=
  bannerSelectors.findSome? (fun selector =>
    (root selector).find? (isLikelyBanner innerWidth))

/-- The function `findBannerElement()`. -/
def findBannerElement (page : Page) : Option Element :=
  match findPlatformBanner page with
  | some el => some el
  | none =>
    match findGenericBanner page.innerWidth page.querySelectorAll with
    | some el => some el
    | none =>
      match page.shadowRoots.findSome? (findGenericBanner page.innerWidth) with
      | some el => some el
      | none =>
        let allDivs := page.querySelectorAll "div, section, aside"
        match allDivs.find? (fun el =>
            (el.position = "fixed" || el.position = "sticky" || el.position = "absolute") &&
            isLikelyBanner page.innerWidth el) with
        | some el => some el
        | none =>
          allDivs.find? (fun el =>
            decide (el.zIndex.getD 0 > 999) && isLikelyBanner page.innerWidth el)

/-- A container that meets every plausibility condition of `isLikelyBanner`
except possibly those on its text: visible, 400 by 100, fixed, with one
visible `Accept` button. The text and the inner markup given are ASCII, which
`toLowerCase` lower-cases as the builtin does. -/
def candidateWith (id : String) (text html : String) : Element :=
  { node := 10, id := id.toList, className := "notice".toList
    box := ⟨"block", "visible", "1", 400, 100⟩
    rectWidth := 400, rectHeight := 100, position := "fixed", zIndex := some 1000
    textContent := text.toList
    lowerText := toLowerCase text.toList, lowerHTML := toLowerCase html.toList
    interactive := [plainButton 11 "Accept"], roleButtons := [plainButton 11 "Accept"] }

/-- The container of `candidateWith` with the 19-character text
`İzin cookies Accept`, which starts with U+0130; the builtin lower-cases that
character to `i` followed by U+0307, so the lower-cased text has 20 code
units. -/
def dottedCapitalBanner : Element :=
  { candidateWith "cookie-bar" "" "" with
    textContent := "\u0130zin cookies Accept".toList
    lowerText := "i\u0307zin cookies accept".toList
    lowerHTML := "i\u0307zin cookies accept".toList }

/-- A page whose only element is `el`, returned for the selector `selector`. -/
def pageWith (selector : String) (el : Element) : Page :=
  { innerWidth := 1280
    querySelectorAll := fun s => if s = selector then [el] else []
    shadowRoots := []
    querySelectorControl := fun _ => none
    allButtons := el.interactive
    toggles := []
    saveCandidates := [] }


/-! ## Prompt resolver (`content.js`) -/

/-- A consent platform of `CONSENT_PLATFORMS`: its name and the selector lists
the resolver reads. -/
structure ConsentPlatform where
  name : String
  indicators : List String
  acceptSelectors : List String
deriving DecidableEq

/-- The table `CONSENT_PLATFORMS`, in the order of its entries. -/
def CONSENT_PLATFORMS : List ConsentPlatform := [
  ⟨"onetrust",
    ["#onetrust-banner-sdk", ".onetrust-pc-dark-filter", "#onetrust-consent-sdk"],
    ["#onetrust-accept-btn-handler", ".onetrust-accept-btn-handler",
      "button[title*=\"Accept All\"]", ".ot-pc-agree-button", ".accept-all-button"]⟩,
  ⟨"cookiebot",
    ["#CybotCookiebotDialog", "[id^=\"Cookiebot\"]", ".CybotCookiebotDialog"],
    ["#CybotCookiebotDialogBodyLevelButtonLevelOptinAllowAll",
      "#CybotCookiebotDialogBodyButtonAccept", "[data-cookieconsent=\"accept\"]",
      "a[id*=\"Allow\"]"]⟩,
  ⟨"quantcast",
    ["#qc-cmp2-ui", ".qc-cmp2-container", "[class*=\"qc-cmp\"]"],
    [".qc-cmp2-summary-buttons > button:first-child", "button[mode=\"primary\"]",
      "button[aria-label*=\"Accept\"]"]⟩,
  ⟨"cookiepro",
    [".cookiepro-banner", "#cookiepro-banner"],
    ["#cookiepro-accept-all", ".cookiepro-accept-button"]⟩,
  ⟨"trustarc",
    ["#truste-consent-track", ".truste-banner"],
    [".truste-button1", "[aria-label*=\"Accept\"]", "button[title*=\"Accept\"]"]⟩]

/-- Something the resolver does to the page or records: the event sequence of
`safeClick` on a control (focus, click and the dispatched mouse and pointer
events), such a sequence that raised, the click on a toggle, the insertion of
the hiding style, the write of the site cooldown, a `banner_handled` log. -/
inductive PageAction where
  | click (node : Nat) (method : String)
  | failedClick (node : Nat) (method : String)
  | toggleClick (node : Nat)
  | hideStyle (node : Nat)
  | cooldown
  | log (method : String)
deriving DecidableEq

/-- An action together with the value of `hasActed` at the moment it is
performed. -/
structure Performed where
  action : PageAction
  hasActed : Bool
deriving DecidableEq

/-- The mutable state of the resolver: the flags `hasActed` and
`observerActive`, and what has been performed so far. -/
structure ResolverState where
  hasActed : Bool
  observerActive : Bool
  performed : List Performed
deriving DecidableEq

/-- The object `safeClick` returns on success. -/
structure ClickResult where
  method : String
  buttonText : Str
deriving DecidableEq

/-- The function `safeClick(button, method)`. -/
def safeClick (st : ResolverState) (button : Control) (method : String) :
    ResolverState × Option ClickResult :=
  if st.hasActed then (st, none)
  else
    let buttonText := (trim button.textContent).take 50
    if button.raises then
      (⟨false, false,
        st.performed ++ [⟨PageAction.failedClick button.node method, true⟩]⟩, none)
    else
      (⟨true, false, st.performed ++ [⟨PageAction.click button.node method, true⟩]⟩,
        some ⟨method, buttonText⟩)

/-- The function `detectConsentPlatform()`: the first platform one of whose
indicators matches an element; `none` stands for the `unknown` platform. -/
def detectConsentPlatform (page : Page) : Option ConsentPlatform :=
  CONSENT_PLATFORMS.find? (fun config =>
    config.indicators.any (fun selector => !(page.querySelectorAll selector).isEmpty))

/-- The loop of `tryPlatformSpecificStrategy` over the accept selectors. -/
def tryAcceptSelectors (st : ResolverState) (page : Page) :
    List String → ResolverState × Bool
  | [] => (st, false)
  | selector :: rest =>
    match page.querySelectorControl selector with
    | some button =>
      if isVisible button.box then
        let r := safeClick st button "accept_all"
        (⟨r.1.hasActed, r.1.observerActive,
          r.1.performed ++ [⟨PageAction.log "platform_specific", r.1.hasActed⟩]⟩, true)
      else tryAcceptSelectors st page rest
    | none => tryAcceptSelectors st page rest

/-- The function `tryPlatformSpecificStrategy(platform, prefs)` for a detected
platform. -/
def tryPlatformSpecificStrategy (st : ResolverState) (page : Page)
    (platform : ConsentPlatform) : ResolverState × Bool :=
  tryAcceptSelectors st page platform.acceptSelectors

/-- The function `getToggleLabel(toggle)`. -/
def getToggleLabel (toggle : Toggle) : Str :=
  match toggle.label with
  | some text => toLowerCase text
  | none => []

/-- The function `classifyToggleByLabel(labelText)`; `none` is `null`. -/
def classifyToggleByLabel (labelText : Str) : Option String :=
  if includes labelText "analytics".toList || includes labelText "statistics".toList ||
      includes labelText "measurement".toList then some "analytics"
  else if includes labelText "advertising".toList || includes labelText "marketing".toList ||
      includes labelText "ad".toList then some "advertising"
  else if includes labelText "personalization".toList ||
      includes labelText "functional".toList || includes labelText "preference".toList then
    some "personalization"
  else if includes labelText "necessary".toList || includes labelText "essential".toList ||
      includes labelText "required".toList then some "essential"
  else none

/-- The function `shouldAllowCategory(category, prefs)`. -/
def shouldAllowCategory (category : String) (prefs : Prefs) : Bool :=
  if category = "essential" then true
  else if category = "analytics" then prefs.allowAnalytics
  else if category = "advertising" then prefs.allowAdvertising
  else if category = "personalization" then prefs.allowPersonalization
  else false

/-- The property `toggle.checked` as the loop of `handleConsentToggles` reads
it, after the clicks made so far; `flipped` lists, for every click made, the
nodes whose state it inverted. An element without the property gives
`undefined`, which `||` treats as false. -/
def checkedNow (flipped : List Nat) (toggle : Toggle) : Bool :=
  match toggle.checked with
  | some checked => if flipped.count toggle.node % 2 = 1 then !checked else checked
  | none => false

/-- The test of `handleConsentToggles` on one toggle: it has a category and its
state differs from the preference, so it is clicked. -/
def toggleNeedsClick (flipped : List Nat) (toggle : Toggle) (prefs : Prefs) : Bool :=
  match classifyToggleByLabel (getToggleLabel toggle) with
  | some category =>
    let shouldEnable := shouldAllowCategory category prefs
    let isEnabled := checkedNow flipped toggle || toggle.ariaChecked = some "true".toList
    isEnabled != shouldEnable
  | none => false

/-- The function `handleConsentToggles(prefs)` over the elements its selector
matches, in document order: the state afterwards, the count `modified` and the
nodes inverted by the clicks made. -/
def handleConsentToggles (prefs : Prefs) :
    List Toggle → List Nat → ResolverState → ResolverState × Nat × List Nat
  | [], flipped, st => (st, 0, flipped)
  | toggle :: rest, flipped, st =>
    if toggleNeedsClick flipped toggle prefs then
      let r := handleConsentToggles prefs rest (flipped ++ toggle.flips)
        ⟨st.hasActed, st.observerActive,
          st.performed ++ [⟨PageAction.toggleClick toggle.node, st.hasActed⟩]⟩
      (r.1, r.2.1 + 1, r.2.2)
    else handleConsentToggles prefs rest flipped st

/-- The keyword list of the save control in `handleMultiStepConsent`. -/
def saveKeywords : List Str := List.map String.toList
  ["save", "confirm", "apply", "accept selection", "save preferences", "save choices"]

/-- The function `handleMultiStepConsent(banner, prefs)`. -/
def handleMultiStepConsent (st : ResolverState) (page : Page) (banner : Element)
    (prefs : Prefs) : ResolverState × Bool :=
  match findButtonByKeywords banner.roleButtons BANNER_KEYWORDS.manageButtons with
  | none => (st, false)
  | some manageButton =>
    let s1 := (safeClick st manageButton "manage").1
    let r := handleConsentToggles prefs page.toggles [] s1
    if r.2.1 ≠ 0 then
      match findButtonByKeywords page.saveCandidates saveKeywords with
      | some saveButton =>
        let s3 := (safeClick r.1 saveButton "save_preferences").1
        (⟨s3.hasActed, s3.observerActive,
          s3.performed ++ [⟨PageAction.log "multi_step", s3.hasActed⟩]⟩, true)
      | none => (r.1, false)
    else (r.1, false)

/-- The function `clickAppropriateButton(banner, prefs)`; `none` is `null`. -/
def clickAppropriateButton (st : ResolverState) (page : Page) (banner : Element)
    (prefs : Prefs) : ResolverState × Option ClickResult :=
  if st.hasActed then (st, none)
  else
    let hasBlockedCategories :=
      !prefs.allowAnalytics || !prefs.allowAdvertising || !prefs.allowPersonalization
    if !hasBlockedCategories then (st, none)
    else if prefs.safeMode then (st, some ⟨"detected_only", "Safe mode".toList⟩)
    else
      let acceptButton :=
        match findButtonByKeywords banner.interactive BANNER_KEYWORDS.acceptButtons with
        | some b => some b
        | none => findButtonByKeywords page.allButtons BANNER_KEYWORDS.acceptButtons
      let afterAccept : ResolverState × Option ClickResult :=
        match acceptButton with
        | some b => safeClick st b "accept_all"
        | none => (st, none)
      match afterAccept.2 with
      | some result => (afterAccept.1, some result)
      | none =>
        match findButtonByKeywords banner.interactive
            (List.map String.toList ["ok", "got it", "continue"]) with
        | some dismissButton =>
          let r := safeClick afterAccept.1 dismissButton "dismiss"
          match r.2 with
          | some result => (r.1, some result)
          | none => (r.1, none)
        | none => (afterAccept.1, none)

/-- The function `hideBannerWithCSS(banner)`: the hiding style is inserted and
the action logged. -/
def hideBannerWithCSS (st : ResolverState) (banner : Element) : ResolverState :=
  ⟨st.hasActed, st.observerActive,
    st.performed ++ [⟨PageAction.hideStyle banner.node, st.hasActed⟩,
      ⟨PageAction.log "css_hide", st.hasActed⟩]⟩

/-- The statements `hasActed = true; setSiteCooldown(); disconnectObserver();`
that end a branch of `checkForBanner`. -/
def finishTick (st : ResolverState) : ResolverState :=
  ⟨true, false, st.performed ++ [⟨PageAction.cooldown, true⟩]⟩

/-- The function `checkForBanner(prefs)`: one detection tick. -/
def checkForBanner (st : ResolverState) (page : Page) (prefs : Prefs) : ResolverState :=
  if st.hasActed then st
  else
    match findBannerElement page with
    | none => st
    | some banner =>
      let afterPlatform : ResolverState × Bool :=
        match detectConsentPlatform page with
        | some platform => tryPlatformSpecificStrategy st page platform
        | none => (st, false)
      if afterPlatform.2 then finishTick afterPlatform.1
      else
        let afterMulti := handleMultiStepConsent afterPlatform.1 page banner prefs
        if afterMulti.2 then finishTick afterMulti.1
        else
          let afterClick := clickAppropriateButton afterMulti.1 page banner prefs
          match afterClick.2 with
          | some clicked =>
            let s := finishTick afterClick.1
            ⟨s.hasActed, s.observerActive,
              s.performed ++ [⟨PageAction.log clicked.method, s.hasActed⟩]⟩
          | none =>
            if !prefs.safeMode then finishTick (hideBannerWithCSS afterClick.1 banner)
            else afterClick.1

/-- The resolver state at page load. -/
def idleState : ResolverState := ⟨false, true, []⟩

/-- A fixed, visible banner with the text `We use cookies on this site.` and
the given interactive controls and role buttons. -/
def sampleBanner (interactive roleButtons : List Control) : Element :=
  { node := 10, id := "cookie-bar".toList, className := "notice".toList
    box := ⟨"block", "visible", "1", 400, 100⟩
    rectWidth := 400, rectHeight := 100, position := "fixed", zIndex := some 1000
    textContent := "We use cookies on this site.".toList
    lowerText := "we use cookies on this site.".toList
    lowerHTML := "we use cookies on this site.".toList
    interactive := interactive, roleButtons := roleButtons }

/-- A page whose only container is `sampleBanner`, found through the selector
`[id*="cookie"]`, with the given toggles and save candidates after a manage
click; no consent platform is present. -/
def bannerPage (interactive roleButtons : List Control) (toggles : List Toggle)
    (saveCandidates : List Control) : Page :=
  { innerWidth := 1280
    querySelectorAll := fun s =>
      if s = "[id*=\"cookie\"]" then [sampleBanner interactive roleButtons] else []
    shadowRoots := []
    querySelectorControl := fun _ => none
    allButtons := interactive
    toggles := toggles
    saveCandidates := saveCandidates }

/-- Preferences that allow every category, safe mode off. -/
def allowAllPrefs : Prefs := ⟨true, false, true, true, true, true⟩

/-- The preferences written at installation: no category allowed, safe mode
off. -/
def defaultPrefs : Prefs := ⟨true, false, true, false, false, false⟩

/-- The toggle clicks of `handleConsentToggles`, each with the given value of
`hasActed`. -/
def toggleClicks (prefs : Prefs) : List Toggle → List Nat → Bool → List Performed
  | [], _, _ => []
  | toggle :: rest, flipped, flag =>
    if toggleNeedsClick flipped toggle prefs then
      ⟨PageAction.toggleClick toggle.node, flag⟩ ::
        toggleClicks prefs rest (flipped ++ toggle.flips) flag
    else toggleClicks prefs rest flipped flag

/-- A checkbox of its own: an element with the property `checked`, whose click
inverts its own state. -/
def checkbox (node : Nat) (label : String) (checked : Bool) : Toggle :=
  ⟨node, some label.toList, some checked, none, [node]⟩

/-- The three elements the selector of `handleConsentToggles` matches in
`<label class="toggle-switch">Strictly necessary<input type="checkbox" checked>
<span class="slider"></span></label>`, in document order: the label (node 50),
the checked checkbox (node 51) and the slider (node 52). `getToggleLabel`
finds the label for each; a click on any of them inverts the checkbox. -/
def switchMarkup : List Toggle :=
  [⟨50, some "Strictly necessary".toList, none, none, [51]⟩,
   ⟨51, some "Strictly necessary".toList, some true, none, [51]⟩,
   ⟨52, some "Strictly necessary".toList, none, none, [51]⟩]

/-- The category names the prompt of `classifyWithAI` lists as permitted
answers. -/
def promptCategories : List String :=
  ["essential", "analytics", "personalisation", "advertisement"]

/-- The fixed part of the prompt of `classifyWithAI` after the cookie value. -/
def promptTail : Str :=
  ("\"\n\nClassify into ONE of these categories:\n" ++
  "- essential        (required for login, session, security, site operation)\n" ++
  "- analytics        (site measurement, performance, behavior tracking)\n" ++
  "- personalisation  (preferences, customisation, A/B testing, UX tailoring)\n" ++
  "- advertisement    (ads, retargeting, cross-site tracking, campaign IDs)\n\n" ++
  "Respond ONLY with valid JSON in this exact format:\n" ++
  "\x7b\"category\":\"<category>\",\"confidence\":<0.0-1.0>," ++
  "\"reasoning\":\"<brief explanation>\"\x7d").toList

/-- The template `prompt` of `classifyWithAI`; the value shown is
`cookieValue?.substring(0, 100) || 'N/A'`. -/
def classifierPrompt (cookieName cookieDomain : Str) (cookieValue : Option Str) : Str :=
  ("You are a cookie classification expert. Analyze this cookie and provide ONLY " ++
    "a JSON response.\n\nCookie name: \"").toList ++ cookieName ++
  "\"\nDomain: \"".toList ++ cookieDomain ++ "\"\nValue: \"".toList ++
  (match cookieValue with
    | some v => if (v.take 100).isEmpty then "N/A".toList else v.take 100
    | none => "N/A".toList) ++
  promptTail

/-! ## Facts about the string primitives -/

theorem includes_iff (s pat : Str) : includes s pat = true ↔ pat <:+: s := by
  induction s with
  | nil =>
    cases pat <;> simp [includes]
  | cons c cs ih =>
    rw [includes, Bool.or_eq_true, ih, List.infix_cons_iff, List.isPrefixOf_iff_prefix]

theorem includes_toLowerCase (s pat : Str) (hpat : toLowerCase pat = pat)
    (h : includes s pat = true) : includes (toLowerCase s) pat = true := by
  rw [includes_iff] at h ⊢
  obtain ⟨a, b, rfl⟩ := h
  refine ⟨toLowerCase a, toLowerCase b, ?_⟩
  simp only [toLowerCase, List.map_append] at hpat ⊢
  rw [hpat]

theorem somePatternIn_of_mem (patterns : List Str) (nameLower pat : Str)
    (hmem : pat ∈ patterns) (h : includes nameLower pat = true) :
    somePatternIn patterns nameLower = true := by
  unfold somePatternIn
  exact List.any_eq_true.mpr ⟨pat, hmem, h⟩

/-- Case analysis for a chain of twelve guarded returns with a default, the
shape of `classifyCookie`: a property holds of the result as soon as it holds
of each return under the guards that lead to it. -/
theorem guarded_chain {a b c d e f g h i j k l : Bool}
    {ra rb rc rd re rf rg rh ri rj rk rl rz : Classification} (P : Classification → Prop)
    (ha : a = true → P ra)
    (hb : a = false → b = true → P rb)
    (hc : a = false → b = false → c = true → P rc)
    (hd : a = false → b = false → c = false → d = true → P rd)
    (he : a = false → b = false → c = false → d = false → e = true → P re)
    (hf : a = false → b = false → c = false → d = false → e = false → f = true → P rf)
    (hg : a = false → b = false → c = false → d = false → e = false → f = false →
      g = true → P rg)
    (hh : a = false → b = false → c = false → d = false → e = false → f = false →
      g = false → h = true → P rh)
    (hi : a = false → b = false → c = false → d = false → e = false → f = false →
      g = false → h = false → i = true → P ri)
    (hj : a = false → b = false → c = false → d = false → e = false → f = false →
      g = false → h = false → i = false → j = true → P rj)
    (hk : a = false → b = false → c = false → d = false → e = false → f = false →
      g = false → h = false → i = false → j = false → k = true → P rk)
    (hl : a = false → b = false → c = false → d = false → e = false → f = false →
      g = false → h = false → i = false → j = false → k = false → l = true → P rl)
    (hz : a = false → b = false → c = false → d = false → e = false → f = false →
      g = false → h = false → i = false → j = false → k = false → l = false → P rz) :
    P (if a then ra else if b then rb else if c then rc else if d then rd else
      if e then re else if f then rf else if g then rg else if h then rh else
      if i then ri else if j then rj else if k then rk else if l then rl else rz) := by
  cases a
  swap
  · exact ha rfl
  cases b
  swap
  · exact hb rfl rfl
  cases c
  swap
  · exact hc rfl rfl rfl
  cases d
  swap
  · exact hd rfl rfl rfl rfl
  cases e
  swap
  · exact he rfl rfl rfl rfl rfl
  cases f
  swap
  · exact hf rfl rfl rfl rfl rfl rfl
  cases g
  swap
  · exact hg rfl rfl rfl rfl rfl rfl rfl
  cases h
  swap
  · exact hh rfl rfl rfl rfl rfl rfl rfl rfl
  cases i
  swap
  · exact hi rfl rfl rfl rfl rfl rfl rfl rfl rfl
  cases j
  swap
  · exact hj rfl rfl rfl rfl rfl rfl rfl rfl rfl rfl
  cases k
  swap
  · exact hk rfl rfl rfl rfl rfl rfl rfl rfl rfl rfl rfl
  cases l
  swap
  · exact hl rfl rfl rfl rfl rfl rfl rfl rfl rfl rfl rfl rfl
  exact hz rfl rfl rfl rfl rfl rfl rfl rfl rfl rfl rfl rfl

/-! ## Category policy -/

/-- C1: for every preference set, `shouldDeleteCookie` is false for
`essential`, for `unknown` and for every unrecognised category string; for
`analytics`, `advertising` and `personalization` it is true exactly when the
corresponding allow-preference is false; `social` gets the answer of
`personalization`. -/
theorem shouldDeleteCookie_policy (prefs : Prefs) :
    shouldDeleteCookie "essential" prefs = false ∧
    shouldDeleteCookie "unknown" prefs = false ∧
    (∀ category : String,
      category ∉ ["essential", "analytics", "advertising", "personalization", "social", "unknown"] →
      shouldDeleteCookie category prefs = false) ∧
    (shouldDeleteCookie "analytics" prefs = true ↔ prefs.allowAnalytics = false) ∧
    (shouldDeleteCookie "advertising" prefs = true ↔ prefs.allowAdvertising = false) ∧
    (shouldDeleteCookie "personalization" prefs = true ↔ prefs.allowPersonalization = false) ∧
    shouldDeleteCookie "social" prefs = shouldDeleteCookie "personalization" prefs := by
  refine ⟨by simp [shouldDeleteCookie], by simp [shouldDeleteCookie], ?_,
    by simp [shouldDeleteCookie], by simp [shouldDeleteCookie], by simp [shouldDeleteCookie],
    by simp [shouldDeleteCookie]⟩
  intro category h
  simp only [List.mem_cons, List.mem_singleton, not_or, List.mem_nil_iff, or_false] at h
  obtain ⟨h1, h2, h3, h4, h5, h6⟩ := h
  simp [shouldDeleteCookie, h1, h2, h3, h4, h5, h6]

/-! ## Classification -/

/-- C6: for every name, owning domain and page cookie string the category
returned by `classifyCookie` is one of essential, analytics, advertising,
personalization, social, unknown, and the result is determined by those
inputs: calls with equal name, domain and cookie string return equal results. -/
theorem classifyCookie_category_total (documentCookie cookieName cookieDomain : Str) :
    (classifyCookie documentCookie cookieName cookieDomain).category ∈
      ["essential", "analytics", "advertising", "personalization", "social", "unknown"] ∧
    (∀ documentCookie2 cookieName2 cookieDomain2 : Str,
      documentCookie2 = documentCookie → cookieName2 = cookieName →
      cookieDomain2 = cookieDomain →
      classifyCookie documentCookie2 cookieName2 cookieDomain2 =
        classifyCookie documentCookie cookieName cookieDomain) := by
  constructor
  · unfold classifyCookie
    dsimp only
    refine guarded_chain
      (fun r => r.category ∈
        ["essential", "analytics", "advertising", "personalization", "social", "unknown"])
      ?_ ?_ ?_ ?_ ?_ ?_ ?_ ?_ ?_ ?_ ?_ ?_ ?_
    all_goals intros
    all_goals decide
  · intro a b c h1 h2 h3
    rw [h1, h2, h3]

theorem trackingPrefixed_false {nameLower : Str} (h : trackingPrefixed nameLower = false) :
    (startsWith nameLower "analytics_".toList || startsWith nameLower "a_".toList) = false ∧
    (startsWith nameLower "ad_".toList || startsWith nameLower "advertising_".toList) = false ∧
    (startsWith nameLower "personalization_".toList || startsWith nameLower "p_".toList)
      = false := by
  unfold trackingPrefixed at h
  simp only [Bool.or_eq_false_iff] at h ⊢
  obtain ⟨⟨⟨⟨⟨h1, h2⟩, h3⟩, h4⟩, h5⟩, h6⟩ := h
  exact ⟨⟨h1, h2⟩, ⟨h3, h4⟩, ⟨h5, h6⟩⟩

theorem thirdParty_guard_false {domainLower : Str} (h : onThirdPartyList domainLower = false) :
    (!domainLower.isEmpty &&
      THIRD_PARTY_DOMAINS.any (fun domain => includes domainLower domain)) = false := by
  unfold onThirdPartyList at h
  rw [h, Bool.and_false]

theorem essential_pattern_of_name {cookieName : Str}
    (hname : includes cookieName "session".toList = true ∨
      includes cookieName "csrf".toList = true ∨ includes cookieName "auth".toList = true) :
    somePatternIn COOKIE_PATTERNS.essential (toLowerCase cookieName) = true := by
  rcases hname with h | h | h
  · exact somePatternIn_of_mem _ _ "session".toList (by decide)
      (includes_toLowerCase _ _ (by decide) h)
  · exact somePatternIn_of_mem _ _ "csrf".toList (by decide)
      (includes_toLowerCase _ _ (by decide) h)
  · exact somePatternIn_of_mem _ _ "auth".toList (by decide)
      (includes_toLowerCase _ _ (by decide) h)

/-- C2 (as amended): a cookie name containing `session`, `csrf` or `auth`
whose lower-cased form has no analytics, advertising or personalization
naming-convention marker, and which either carries the essential marker or is
owned by a domain outside the third-party list, is classified essential for
every page cookie string, and `shouldDeleteCookie` is false for it under every
preference set. -/
theorem classifyCookie_essential_names (documentCookie cookieName cookieDomain : Str)
    (prefs : Prefs)
    (hname : includes cookieName "session".toList = true ∨
      includes cookieName "csrf".toList = true ∨ includes cookieName "auth".toList = true)
    (hpre : trackingPrefixed (toLowerCase cookieName) = false)
    (hdom : essentialPrefixed (toLowerCase cookieName) = true ∨
      onThirdPartyList (toLowerCase cookieDomain) = false) :
    (classifyCookie documentCookie cookieName cookieDomain).category = "essential" ∧
    shouldDeleteCookie (classifyCookie documentCookie cookieName cookieDomain).category prefs
      = false := by
  have hess := essential_pattern_of_name hname
  obtain ⟨h1, h2, h3⟩ := trackingPrefixed_false hpre
  unfold classifyCookie
  dsimp only
  refine guarded_chain
    (fun r => r.category = "essential" ∧ shouldDeleteCookie r.category prefs = false)
    ?_ ?_ ?_ ?_ ?_ ?_ ?_ ?_ ?_ ?_ ?_ ?_ ?_
  · intro h; rw [h1] at h; exact absurd h (by decide)
  · intro _ h; rw [h2] at h; exact absurd h (by decide)
  · intros; exact ⟨rfl, rfl⟩
  · intro _ _ _ h; rw [h3] at h; exact absurd h (by decide)
  · intro _ _ hc _ he
    rcases hdom with hd | hd
    · unfold essentialPrefixed at hd; rw [hc] at hd; exact absurd hd (by decide)
    · rw [thirdParty_guard_false hd] at he; exact absurd he (by decide)
  · intros; exact ⟨rfl, rfl⟩
  · intros; exact ⟨rfl, rfl⟩
  all_goals
    intro _ _ _ _ _ _ hg
    rw [hess] at hg
    exact absurd hg (by decide)

/-- C2 (witness): `session_id` on `example.com`. -/
theorem classifyCookie_essential_names_witness :
    (classifyCookie "session_id=abc".toList "session_id".toList "example.com".toList).category
      = "essential" ∧
    shouldDeleteCookie
      (classifyCookie "session_id=abc".toList "session_id".toList "example.com".toList).category
      ⟨true, false, true, false, false, false⟩ = false :=
  classifyCookie_essential_names "session_id=abc".toList "session_id".toList
    "example.com".toList ⟨true, false, true, false, false, false⟩
    (Or.inl (by decide)) (by decide) (Or.inr (by decide))

/-- C2 (counterexample): `session_id` owned by `doubleclick.net` is classified
advertising, and `a_session` on `example.com` is classified analytics; with
the matching preference off, `shouldDeleteCookie` selects both for deletion. -/
theorem essential_name_selected_for_deletion :
    includes "session_id".toList "session".toList = true ∧
    (classifyCookie "session_id=abc".toList "session_id".toList
      "doubleclick.net".toList).category = "advertising" ∧
    shouldDeleteCookie (classifyCookie "session_id=abc".toList "session_id".toList
      "doubleclick.net".toList).category ⟨true, false, true, true, false, true⟩ = true ∧
    includes "a_session".toList "session".toList = true ∧
    (classifyCookie "a_session=abc".toList "a_session".toList
      "example.com".toList).category = "analytics" ∧
    shouldDeleteCookie (classifyCookie "a_session=abc".toList "a_session".toList
      "example.com".toList).category ⟨true, false, true, false, true, true⟩ = true := by
  decide

/-- An entry whose name `classifyCookie` classifies as essential is deleted
neither by the loop of `cleanupWithAI` nor by that of
`cleanupWithClassification`. -/
theorem essential_entry_kept (prefs : Prefs) (hostname documentCookie : Str) (ai : Classifier)
    (cookie : Str)
    (h : (classifyCookie documentCookie (cookieNameOf cookie) hostname).category = "essential") :
    (cleanupWithAIStep prefs hostname documentCookie ai cookie).1 = none ∧
    cleanupWithClassificationStep prefs hostname documentCookie cookie = none := by
  unfold cleanupWithAIStep cleanupWithClassificationStep
  dsimp only
  generalize classifyCookie documentCookie (cookieNameOf cookie) hostname = r at h
  rw [h]
  have hdel : shouldDeleteCookie "essential" prefs = false := rfl
  have hne : decide ("essential" = "unknown") = false := by decide
  constructor
  · rw [hne, Bool.and_false]
    simp [hdel]
  · simp [hdel]

/-- C4 (as amended): when the value `classifyCookie` looks up for the name
(the piece between the first and second `=` of the first entry of the page
cookie string that starts with `name=`) begins with `eyJ`, the lower-cased
name has no analytics, advertising or personalization naming-convention
marker, and the name carries the essential marker or the owning domain is
outside the third-party list, the result is essential with confidence high,
`shouldDeleteCookie` is false for it under every preference set, and the
passes that decide from `classifyCookie` (`cleanupWithAI`,
`cleanupWithClassification`) do not delete an entry with that name. -/
theorem classifyCookie_jwt_essential (documentCookie cookieName cookieDomain : Str)
    (hjwt : hasJwtValue documentCookie cookieName = true)
    (hpre : trackingPrefixed (toLowerCase cookieName) = false)
    (hdom : essentialPrefixed (toLowerCase cookieName) = true ∨
      onThirdPartyList (toLowerCase cookieDomain) = false) :
    (classifyCookie documentCookie cookieName cookieDomain).category = "essential" ∧
    (classifyCookie documentCookie cookieName cookieDomain).confidence = "high" ∧
    (∀ prefs : Prefs,
      shouldDeleteCookie (classifyCookie documentCookie cookieName cookieDomain).category prefs
        = false) ∧
    (∀ (prefs : Prefs) (ai : Classifier) (cookie : Str), cookieNameOf cookie = cookieName →
      (cleanupWithAIStep prefs cookieDomain documentCookie ai cookie).1 = none ∧
      cleanupWithClassificationStep prefs cookieDomain documentCookie cookie = none) := by
  have main : (classifyCookie documentCookie cookieName cookieDomain).category = "essential" ∧
      (classifyCookie documentCookie cookieName cookieDomain).confidence = "high" := by
    obtain ⟨h1, h2, h3⟩ := trackingPrefixed_false hpre
    unfold classifyCookie
    dsimp only
    refine guarded_chain (fun r => r.category = "essential" ∧ r.confidence = "high")
      ?_ ?_ ?_ ?_ ?_ ?_ ?_ ?_ ?_ ?_ ?_ ?_ ?_
    · intro h; rw [h1] at h; exact absurd h (by decide)
    · intro _ h; rw [h2] at h; exact absurd h (by decide)
    · intros; exact ⟨rfl, rfl⟩
    · intro _ _ _ h; rw [h3] at h; exact absurd h (by decide)
    · intro _ _ hc _ he
      rcases hdom with hd | hd
      · unfold essentialPrefixed at hd; rw [hc] at hd; exact absurd hd (by decide)
      · rw [thirdParty_guard_false hd] at he; exact absurd he (by decide)
    · intros; exact ⟨rfl, rfl⟩
    all_goals
      intro _ _ _ _ _ hf
      rw [hjwt] at hf
      exact absurd hf (by decide)
  refine ⟨main.1, main.2, ?_, ?_⟩
  · intro prefs
    rw [main.1]
    rfl
  · intro prefs ai cookie hn
    apply essential_entry_kept
    rw [hn]
    exact main.1

/-- C4 (witness): the cookie `zz` with a JWT value on `example.com`. -/
theorem classifyCookie_jwt_essential_witness :
    (classifyCookie "a=1; zz=eyJhbGciOiJIUzI1NiJ9.e30.x".toList "zz".toList
      "example.com".toList).category = "essential" ∧
    (classifyCookie "a=1; zz=eyJhbGciOiJIUzI1NiJ9.e30.x".toList "zz".toList
      "example.com".toList).confidence = "high" ∧
    ∀ prefs : Prefs,
      shouldDeleteCookie (classifyCookie "a=1; zz=eyJhbGciOiJIUzI1NiJ9.e30.x".toList "zz".toList
        "example.com".toList).category prefs = false :=
  have h := classifyCookie_jwt_essential "a=1; zz=eyJhbGciOiJIUzI1NiJ9.e30.x".toList
    "zz".toList "example.com".toList (by decide) (by decide) (Or.inr (by decide))
  ⟨h.1, h.2.1, h.2.2.1⟩

/-- C4 (counterexample): a cookie whose value begins with `eyJ` is classified
analytics when its name starts with `analytics_`, and advertising when its
owning domain is `doubleclick.net`; with the matching preference off it is
selected for deletion. A manifest that declares such a cookie as analytics
has it deleted by `cleanupWithManifest`, which does not call `classifyCookie`. -/
theorem jwt_value_selected_for_deletion :
    hasJwtValue "analytics_zz=eyJhbGciOiJIUzI1NiJ9.e30.x".toList "analytics_zz".toList = true ∧
    (classifyCookie "analytics_zz=eyJhbGciOiJIUzI1NiJ9.e30.x".toList "analytics_zz".toList
      "example.com".toList).category = "analytics" ∧
    shouldDeleteCookie (classifyCookie "analytics_zz=eyJhbGciOiJIUzI1NiJ9.e30.x".toList
      "analytics_zz".toList "example.com".toList).category
      ⟨true, false, true, false, true, true⟩ = true ∧
    hasJwtValue "zz=eyJhbGciOiJIUzI1NiJ9.e30.x".toList "zz".toList = true ∧
    (classifyCookie "zz=eyJhbGciOiJIUzI1NiJ9.e30.x".toList "zz".toList
      "doubleclick.net".toList).category = "advertising" ∧
    shouldDeleteCookie (classifyCookie "zz=eyJhbGciOiJIUzI1NiJ9.e30.x".toList "zz".toList
      "doubleclick.net".toList).category ⟨true, false, true, true, false, true⟩ = true ∧
    (cleanupWithManifest [⟨"zz".toList, "analytics", "vendor".toList, "purpose".toList⟩]
      ⟨true, false, false, false, true, true⟩ "example.com".toList
      "zz=eyJhbGciOiJIUzI1NiJ9.e30.x".toList (fun _ _ _ => none)).deleted = ["zz".toList] := by
  decide

theorem essentialPrefixed_false {nameLower : Str} (h : essentialPrefixed nameLower = false) :
    (startsWith nameLower "essential_".toList || startsWith nameLower "e_".toList) = false := h

/-- The pattern tiers of `classifyCookie` agree with the spec order: when no
earlier tier decides, the category is that of the first keyword set matching
the lower-cased name, and the default result is returned when none matches. -/
theorem classifyCookie_pattern_tiers (documentCookie cookieName cookieDomain : Str)
    (hpre : trackingPrefixed (toLowerCase cookieName) = false)
    (hess : essentialPrefixed (toLowerCase cookieName) = false)
    (hdom : onThirdPartyList (toLowerCase cookieDomain) = false)
    (hjwt : hasJwtValue documentCookie cookieName = false) :
    (classifyCookie documentCookie cookieName cookieDomain).category =
      (firstMatchingSet (toLowerCase cookieName)).getD "unknown" ∧
    (firstMatchingSet (toLowerCase cookieName) = none →
      classifyCookie documentCookie cookieName cookieDomain = ⟨"unknown", "default", "low"⟩) := by
  obtain ⟨h1, h2, h3⟩ := trackingPrefixed_false hpre
  have h4 := essentialPrefixed_false hess
  have h5 := thirdParty_guard_false hdom
  unfold classifyCookie
  dsimp only
  refine guarded_chain
    (fun r => r.category = (firstMatchingSet (toLowerCase cookieName)).getD "unknown" ∧
      (firstMatchingSet (toLowerCase cookieName) = none → r = ⟨"unknown", "default", "low"⟩))
    ?_ ?_ ?_ ?_ ?_ ?_ ?_ ?_ ?_ ?_ ?_ ?_ ?_
  · intro h; rw [h1] at h; exact absurd h (by decide)
  · intro _ h; rw [h2] at h; exact absurd h (by decide)
  · intro _ _ h; rw [h4] at h; exact absurd h (by decide)
  · intro _ _ _ h; rw [h3] at h; exact absurd h (by decide)
  · intro _ _ _ _ h; rw [h5] at h; exact absurd h (by decide)
  · intro _ _ _ _ _ h; rw [hjwt] at h; exact absurd h (by decide)
  · intro _ _ _ _ _ _ g
    unfold somePatternIn at g
    simp only [firstMatchingSet, keywordSetsInOrder, List.find?_cons, g, Option.map_some',
      Option.getD_some, true_and]
    intro hn; exact absurd hn (by simp)
  · intro _ _ _ _ _ _ g h
    unfold somePatternIn at g h
    simp only [firstMatchingSet, keywordSetsInOrder, List.find?_cons, g, h, Option.map_some',
      Option.getD_some, true_and]
    intro hn; exact absurd hn (by simp)
  · intro _ _ _ _ _ _ g h i
    unfold somePatternIn at g h i
    simp only [firstMatchingSet, keywordSetsInOrder, List.find?_cons, g, h, i, Option.map_some',
      Option.getD_some, true_and]
    intro hn; exact absurd hn (by simp)
  · intro _ _ _ _ _ _ g h i j
    unfold somePatternIn at g h i j
    simp only [firstMatchingSet, keywordSetsInOrder, List.find?_cons, g, h, i, j,
      Option.map_some', Option.getD_some, true_and]
    intro hn; exact absurd hn (by simp)
  · intro _ _ _ _ _ _ g h i j k
    unfold somePatternIn at g h i j k
    simp only [firstMatchingSet, keywordSetsInOrder, List.find?_cons, g, h, i, j, k,
      Option.map_some', Option.getD_some, true_and]
    intro hn; exact absurd hn (by simp)
  · intro _ _ _ _ _ _ g h i j k l
    unfold somePatternIn at g h i j k l
    simp only [firstMatchingSet, keywordSetsInOrder, List.find?_cons, g, h, i, j, k, l,
      Option.map_some', Option.getD_some, true_and]
    intro hn; exact absurd hn (by simp)
  · intro _ _ _ _ _ _ g h i j k l
    unfold somePatternIn at g h i j k l
    simp only [firstMatchingSet, keywordSetsInOrder, List.find?_cons, g, h, i, j, k, l,
      List.find?_nil, Option.map_none', Option.getD_none, true_and]
    intro _; trivial

/-- For every name without a naming-convention marker, owned by a domain in
which no entry of the third-party list occurs as a substring, and whose
looked-up value is not token-shaped, `classifyCookie` returns the category of
the first keyword set, in the order essential, analytics, advertising,
A/B-testing (reported as analytics), personalization, social, that has a
pattern occurring in the lower-cased name, and returns unknown with confidence
low when no set matches; in particular `_ga` on `example.com` is classified
analytics and is selected for deletion when `allowAnalytics` is false. -/
theorem classifyCookie_first_keyword_set (documentCookie cookieName cookieDomain : Str)
    (hpre : trackingPrefixed (toLowerCase cookieName) = false)
    (hess : essentialPrefixed (toLowerCase cookieName) = false)
    (hdom : onThirdPartyList (toLowerCase cookieDomain) = false)
    (hjwt : hasJwtValue documentCookie cookieName = false) :
    ((classifyCookie documentCookie cookieName cookieDomain).category =
      (firstMatchingSet (toLowerCase cookieName)).getD "unknown") ∧
    (firstMatchingSet (toLowerCase cookieName) = none →
      (classifyCookie documentCookie cookieName cookieDomain).category = "unknown" ∧
      (classifyCookie documentCookie cookieName cookieDomain).confidence = "low") ∧
    (∀ pageCookie : Str, hasJwtValue pageCookie "_ga".toList = false →
      (classifyCookie pageCookie "_ga".toList "example.com".toList).category = "analytics" ∧
      ∀ prefs : Prefs, prefs.allowAnalytics = false →
        shouldDeleteCookie
          (classifyCookie pageCookie "_ga".toList "example.com".toList).category prefs
          = true) := by
  have hgen := classifyCookie_pattern_tiers documentCookie cookieName cookieDomain
    hpre hess hdom hjwt
  refine ⟨hgen.1, ?_, ?_⟩
  · intro hn
    rw [hgen.2 hn]
    exact ⟨rfl, rfl⟩
  · intro pageCookie hj
    have hga := (classifyCookie_pattern_tiers pageCookie "_ga".toList "example.com".toList
      (by decide) (by decide) (by decide) hj).1
    have hfirst : (firstMatchingSet (toLowerCase "_ga".toList)).getD "unknown" = "analytics" := by
      decide
    rw [hfirst] at hga
    refine ⟨hga, ?_⟩
    intro prefs hp
    rw [hga]
    simp [shouldDeleteCookie, hp]

/-- The keyword tiers decide `_ga` on `example.com` with a Google Analytics
value. -/
theorem classifyCookie_first_keyword_set_witness :
    (classifyCookie "_ga=GA1.2.3".toList "_ga".toList "example.com".toList).category =
      (firstMatchingSet (toLowerCase "_ga".toList)).getD "unknown" ∧
    (classifyCookie "_ga=GA1.2.3".toList "_ga".toList "example.com".toList).category
      = "analytics" ∧
    shouldDeleteCookie
      (classifyCookie "_ga=GA1.2.3".toList "_ga".toList "example.com".toList).category
      ⟨true, false, true, false, true, true⟩ = true :=
  have h := classifyCookie_first_keyword_set "_ga=GA1.2.3".toList "_ga".toList
    "example.com".toList (by decide) (by decide) (by decide) (by decide)
  ⟨h.1, (h.2.2 "_ga=GA1.2.3".toList (by decide)).1,
    (h.2.2 "_ga=GA1.2.3".toList (by decide)).2 ⟨true, false, true, false, true, true⟩ rfl⟩

/-- C5 (failing input): the name `_ga` has no naming-convention prefix, its
value `GA1.2.3` is not token-shaped, and the first keyword set with a pattern
in it is the analytics set. Its owning domain `saturn.com` is not an entry of
the third-party list and not a subdomain of one; the entry `turn.com` occurs
in it as a substring, and `classifyCookie` returns advertising by the
third-party rule. On `example.com` the same cookie is analytics. -/
theorem classifyCookie_third_party_by_substring :
    trackingPrefixed (toLowerCase "_ga".toList) = false ∧
    essentialPrefixed (toLowerCase "_ga".toList) = false ∧
    hasJwtValue "_ga=GA1.2.3".toList "_ga".toList = false ∧
    firstMatchingSet (toLowerCase "_ga".toList) = some "analytics" ∧
    "saturn.com".toList ∉ THIRD_PARTY_DOMAINS ∧
    THIRD_PARTY_DOMAINS.all (fun domain => !endsWith "saturn.com".toList ('.' :: domain))
      = true ∧
    includes "saturn.com".toList "turn.com".toList = true ∧
    classifyCookie "_ga=GA1.2.3".toList "_ga".toList "saturn.com".toList =
      ⟨"advertising", "third_party_domain", "high"⟩ ∧
    classifyCookie "_ga=GA1.2.3".toList "_ga".toList "example.com".toList =
      ⟨"analytics", "pattern", "high"⟩ := by
  decide

/-! ## Cleanup passes -/

/-- In `cleanupWithManifest` an entry that is queued for review is not deleted. -/
theorem cleanupWithManifestStep_queued_kept (manifestCookies : List ManifestCookie)
    (prefs : Prefs) (hostname : Str) (ai : Classifier) (cookie : Str)
    (hq : (cleanupWithManifestStep manifestCookies prefs hostname ai cookie).2.isSome = true) :
    (cleanupWithManifestStep manifestCookies prefs hostname ai cookie).1 = none := by
  unfold cleanupWithManifestStep at hq ⊢
  dsimp only at hq ⊢
  split
  · rename_i h; rw [h] at hq; dsimp only at hq
    split at hq <;> simp at hq
  · rename_i h; rw [h] at hq; dsimp only at hq
    split
    · rename_i hai; rw [if_pos hai] at hq
      split
      · rename_i r hr; rw [hr] at hq; dsimp only at hq
        split
        · rfl
        · rename_i hc; rw [if_neg hc] at hq
          split at hq <;> simp at hq
      · rfl
    · rfl

/-- C3 (failing input): one cookie `xk_9f2=abc` on `example.com`, personalization
not allowed, the classifier failing so that `classifyWithAI` answers with its
confidence-0.3 fallback. `cleanupWithAI` queues the cookie for review and
deletes it in the same pass; on the same input `cleanupWithManifest` (empty
manifest) queues it and deletes nothing. -/
theorem cleanupWithAI_deletes_low_confidence :
    (aiFailureFallback "API error: 500".toList).confidence < 0.8 ∧
    (classifyCookie "xk_9f2=abc".toList "xk_9f2".toList "example.com".toList).category
      = "unknown" ∧
    cleanupWithAI ⟨true, false, true, true, true, false⟩ "example.com".toList
      "xk_9f2=abc".toList (fun _ _ _ => some (aiFailureFallback "API error: 500".toList)) =
      ⟨["xk_9f2".toList],
        [⟨"xk_9f2".toList, "example.com".toList, "abc".toList, "personalization", 0.3,
          "AI failed: API error: 500".toList, "ai"⟩]⟩ ∧
    cleanupWithManifest [] ⟨true, false, true, true, true, false⟩ "example.com".toList
      "xk_9f2=abc".toList (fun _ _ _ => some (aiFailureFallback "API error: 500".toList)) =
      ⟨[],
        [⟨"xk_9f2".toList, "example.com".toList, "abc".toList, "personalization", 0.3,
          "AI failed: API error: 500".toList, "ai_undeclared"⟩]⟩ := by
  decide!

/-! ## Enforcement -/

theorem find_mapSet_present (key : Str) (v : AttemptData) (m : List (Str × AttemptData))
    (hany : m.any (fun e => e.1 = key) = true) :
    (m.map (fun e => if e.1 = key then (key, v) else e)).find? (fun e => e.1 = key)
      = some (key, v) := by
  induction m with
  | nil => exact absurd hany (by simp)
  | cons e rest ih =>
    rw [List.map_cons]
    by_cases he : e.1 = key
    · rw [if_pos he]
      exact List.find?_cons_of_pos _ (by simp)
    · rw [if_neg he, List.find?_cons_of_neg _ (by simpa using he)]
      apply ih
      rw [List.any_cons, decide_eq_false he, Bool.false_or] at hany
      exact hany

theorem mapGet_mapSet (m : List (Str × AttemptData)) (key : Str) (v : AttemptData) :
    mapGet (mapSet m key v) key = some v := by
  unfold mapGet mapSet
  split
  · rename_i hany
    rw [find_mapSet_present key v m hany]; rfl
  · rename_i hany
    have hnone : m.find? (fun e => decide (e.1 = key)) = none := by
      rw [List.find?_eq_none]
      intro e he hk
      exact hany (List.any_eq_true.mpr ⟨e, he, hk⟩)
    rw [List.find?_append, hnone]
    simp

/-- A blocked call returns false, changes nothing and issues no storage call. -/
theorem deleteCookieViaAPI_blocked (st : BgState) (store : CookieStore) (now : Int)
    (cookieName url domain : Str)
    (hb : isBlocked st now (blockKey domain cookieName) = true) :
    deleteCookieViaAPI st store now cookieName url domain = (false, st, []) := by
  unfold deleteCookieViaAPI
  dsimp only
  rw [if_pos hb]

/-- A record at the attempt ceiling blocks the key at every time. -/
theorem isBlocked_of_ceiling (st : BgState) (now : Int) (key : Str) (d : AttemptData)
    (hget : mapGet st.recentlyAttempted key = some d)
    (hmax : d.attempts ≥ MAX_DELETION_ATTEMPTS) :
    isBlocked st now key = true := by
  unfold isBlocked
  rw [hget]
  dsimp only
  by_cases hc : now - d.timestamp < ATTEMPT_COOLDOWN
  · rw [if_pos hc]
  · rw [if_neg hc, if_pos hmax]

/-- A record written at time `t` blocks the key during the cooldown. -/
theorem isBlocked_in_cooldown (st : BgState) (t now : Int) (key : Str) (d : AttemptData)
    (hget : mapGet st.recentlyAttempted key = some d) (hts : d.timestamp = t)
    (hlt : now < t + ATTEMPT_COOLDOWN) :
    isBlocked st now key = true := by
  unfold isBlocked
  rw [hget]
  dsimp only
  have : now - d.timestamp < ATTEMPT_COOLDOWN := by rw [hts]; omega
  rw [if_pos this]

/-- A call that is not blocked and whose enumeration resolves records the
attempt with the time of the call. -/
theorem deleteCookieViaAPI_records (st : BgState) (store : CookieStore) (now : Int)
    (cookieName url domain : Str)
    (hnb : isBlocked st now (blockKey domain cookieName) = false)
    (hres : store.getAllRejects = false) :
    mapGet (deleteCookieViaAPI st store now cookieName url domain).2.1.recentlyAttempted
      (blockKey domain cookieName) = some (nextAttempt st now (blockKey domain cookieName)) := by
  unfold deleteCookieViaAPI
  dsimp only
  rw [hnb, hres]
  simp only [Bool.false_eq_true, if_false]
  split
  · exact mapGet_mapSet _ _ _
  · split
    · exact mapGet_mapSet _ _ _
    · exact mapGet_mapSet _ _ _

theorem removeLoop_success (store : CookieStore) (cookies : List Cookie) (start : Nat) :
    (removeLoop store start cookies).1 > 0 ↔
      ∃ (i : Nat) (c : Cookie), cookies[i]? = some c ∧
        store.removeOutcome (start + i) (removeDetailsOf c) = RemoveOutcome.removed := by
  induction cookies generalizing start with
  | nil => simp [removeLoop]
  | cons c rest ih =>
    unfold removeLoop
    dsimp only
    constructor
    · intro h
      by_cases hc : store.removeOutcome start (removeDetailsOf c) = RemoveOutcome.removed
      · exact ⟨0, c, List.getElem?_cons_zero, by simpa using hc⟩
      · rw [if_neg hc, Nat.zero_add] at h
        obtain ⟨i, c2, hi, ho⟩ := (ih (start + 1)).mp h
        refine ⟨i + 1, c2, by simpa using hi, ?_⟩
        rw [← ho]; congr 1; omega
    · rintro ⟨i, c2, hi, ho⟩
      cases i with
      | zero =>
        simp only [List.getElem?_cons_zero, Option.some.injEq] at hi
        subst hi
        rw [Nat.add_zero] at ho
        rw [if_pos ho]; omega
      | succ j =>
        have hj : rest[j]? = some c2 := by simpa using hi
        have : (removeLoop store (start + 1) rest).1 > 0 :=
          (ih (start + 1)).mpr ⟨j, c2, hj, by rw [← ho]; congr 1; omega⟩
        omega

theorem mem_setAdd (s : List Str) (key : Str) : key ∈ setAdd s key := by
  unfold setAdd
  split
  · assumption
  · simp

/-- C8: a call of `deleteCookieViaAPI` that is not blocked returns true
exactly when the enumeration resolves and the removal of at least one matching
cookie reports success; exactly then the key `domain:name` is added to the
blocklist, and when the call returns false the blocklist is unchanged. After a
successful deletion of `_ga` for `example.com` the blocklist contains
`example.com:_ga`. -/
theorem deleteCookieViaAPI_success (st : BgState) (store : CookieStore) (now : Int)
    (cookieName url domain : Str)
    (hnb : isBlocked st now (blockKey domain cookieName) = false) :
    ((deleteCookieViaAPI st store now cookieName url domain).1 = true ↔
      (store.getAllRejects = false ∧
        ∃ (i : Nat) (c : Cookie), (matchingCookies store cookieName domain)[i]? = some c ∧
          store.removeOutcome i (removeDetailsOf c) = RemoveOutcome.removed)) ∧
    ((deleteCookieViaAPI st store now cookieName url domain).1 = true →
      (deleteCookieViaAPI st store now cookieName url domain).2.1.blockedCookies =
        setAdd st.blockedCookies (blockKey domain cookieName) ∧
      blockKey domain cookieName ∈
        (deleteCookieViaAPI st store now cookieName url domain).2.1.blockedCookies) ∧
    ((deleteCookieViaAPI st store now cookieName url domain).1 = false →
      (deleteCookieViaAPI st store now cookieName url domain).2.1.blockedCookies =
        st.blockedCookies) ∧
    (cookieName = "_ga".toList → domain = "example.com".toList →
      (deleteCookieViaAPI st store now cookieName url domain).1 = true →
      "example.com:_ga".toList ∈
        (deleteCookieViaAPI st store now cookieName url domain).2.1.blockedCookies) := by
  have hloop := removeLoop_success store (matchingCookies store cookieName domain) 0
  simp only [Nat.zero_add] at hloop
  have key : ((deleteCookieViaAPI st store now cookieName url domain).1 = true ↔
      (store.getAllRejects = false ∧
        ∃ (i : Nat) (c : Cookie), (matchingCookies store cookieName domain)[i]? = some c ∧
          store.removeOutcome i (removeDetailsOf c) = RemoveOutcome.removed)) ∧
    ((deleteCookieViaAPI st store now cookieName url domain).1 = true →
      (deleteCookieViaAPI st store now cookieName url domain).2.1.blockedCookies =
        setAdd st.blockedCookies (blockKey domain cookieName)) ∧
    ((deleteCookieViaAPI st store now cookieName url domain).1 = false →
      (deleteCookieViaAPI st store now cookieName url domain).2.1.blockedCookies =
        st.blockedCookies) := by
    unfold deleteCookieViaAPI
    dsimp only
    rw [hnb]
    simp only [Bool.false_eq_true, if_false]
    by_cases hrej : store.getAllRejects = true
    · rw [if_pos hrej]
      simp [hrej]
    · rw [if_neg hrej]
      have hrej2 : store.getAllRejects = false := by simpa using hrej
      by_cases hemp : (matchingCookies store cookieName domain).isEmpty = true
      · rw [if_pos hemp]
        have hnil : matchingCookies store cookieName domain = [] := by
          simpa using hemp
        simp [hnil]
      · rw [if_neg hemp]
        by_cases hpos : (removeLoop store 0 (matchingCookies store cookieName domain)).1 > 0
        · rw [if_pos hpos]
          refine ⟨?_, fun _ => rfl, fun h => absurd h (by simp)⟩
          constructor
          · intro _; exact ⟨hrej2, hloop.mp hpos⟩
          · intro _; rfl
        · rw [if_neg hpos]
          refine ⟨?_, fun h => absurd h (by simp), fun _ => rfl⟩
          constructor
          · intro h; exact absurd h (by simp)
          · rintro ⟨_, hex⟩; exact absurd (hloop.mpr hex) hpos
  refine ⟨key.1, ?_, key.2.2, ?_⟩
  · intro h
    refine ⟨key.2.1 h, ?_⟩
    rw [key.2.1 h]
    exact mem_setAdd _ _
  · intro hn hd h
    rw [key.2.1 h, hn, hd]
    exact mem_setAdd _ _

/-- C8 (witness): `_ga` stored on `.example.com`, the removal succeeding. -/
theorem deleteCookieViaAPI_success_witness :
    (deleteCookieViaAPI freshState
      ⟨[⟨"_ga".toList, ".example.com".toList, "/".toList, false, "0".toList⟩], false,
        fun _ _ => RemoveOutcome.removed⟩
      1000 "_ga".toList "https://example.com/".toList "example.com".toList).1 = true ∧
    "example.com:_ga".toList ∈
      (deleteCookieViaAPI freshState
        ⟨[⟨"_ga".toList, ".example.com".toList, "/".toList, false, "0".toList⟩], false,
          fun _ _ => RemoveOutcome.removed⟩
        1000 "_ga".toList "https://example.com/".toList
        "example.com".toList).2.1.blockedCookies :=
  have h := deleteCookieViaAPI_success freshState
    ⟨[⟨"_ga".toList, ".example.com".toList, "/".toList, false, "0".toList⟩], false,
      fun _ _ => RemoveOutcome.removed⟩
    1000 "_ga".toList "https://example.com/".toList "example.com".toList (by decide)
  ⟨by decide, h.2.2.2 rfl rfl (by decide)⟩

/-- C7 (failing input): the store holds `_ga` on `notexample.com`, which is
neither equal to the target `example.com` nor related to it on a label
boundary; the call for `example.com` removes that cookie and reports success. -/
theorem deleteCookieViaAPI_removes_unrelated_domain :
    relatedOnLabelBoundary "example.com".toList (stripLeadingDot "notexample.com".toList)
      = false ∧
    deleteCookieViaAPI freshState
      ⟨[⟨"_ga".toList, "notexample.com".toList, "/".toList, false, "0".toList⟩], false,
        fun _ _ => RemoveOutcome.removed⟩
      1000 "_ga".toList "https://example.com/".toList "example.com".toList =
      (true,
        ⟨["example.com:_ga".toList], [("example.com:_ga".toList, ⟨1000, 1⟩)]⟩,
        [StorageOp.getAll "_ga".toList,
          StorageOp.remove ⟨"http://notexample.com/".toList, "_ga".toList, "0".toList⟩]) := by
  decide

/-- C9 (failing input): the enumeration of the first call, at time 1000,
rejects; the call is not blocked, returns false and leaves no attempt record,
so the second call for the same key one millisecond later is not blocked and
enumerates the store again. -/
theorem deleteCookieViaAPI_second_call_not_blocked :
    isBlocked freshState 1000 (blockKey "example.com".toList "_ga".toList) = false ∧
    deleteCookieViaAPI freshState rejectingStore 1000 "_ga".toList
      "https://example.com/".toList "example.com".toList =
      (false, freshState, [StorageOp.getAll "_ga".toList]) ∧
    deleteCookieViaAPI
      (deleteCookieViaAPI freshState rejectingStore 1000 "_ga".toList
        "https://example.com/".toList "example.com".toList).2.1
      rejectingStore 1001 "_ga".toList "https://example.com/".toList "example.com".toList =
      (false, freshState, [StorageOp.getAll "_ga".toList]) := by
  decide

/-- C10 (failing input): three calls for one key at times 0, 40000 and 80000,
none blocked, each with a rejecting enumeration, leave no attempt record; the
fourth call at time 120000 is not blocked and enumerates the store. -/
theorem deleteCookieViaAPI_fourth_call_not_blocked :
    isBlocked freshState 0 (blockKey "example.com".toList "_ga".toList) = false ∧
    isBlocked (rejectedCall freshState 0).2.1 40000
      (blockKey "example.com".toList "_ga".toList) = false ∧
    isBlocked (rejectedCall (rejectedCall freshState 0).2.1 40000).2.1 80000
      (blockKey "example.com".toList "_ga".toList) = false ∧
    mapGet
      (rejectedCall (rejectedCall (rejectedCall freshState 0).2.1 40000).2.1
        80000).2.1.recentlyAttempted
      (blockKey "example.com".toList "_ga".toList) = none ∧
    rejectedCall
      (rejectedCall (rejectedCall (rejectedCall freshState 0).2.1 40000).2.1 80000).2.1
      120000 = (false, freshState, [StorageOp.getAll "_ga".toList]) := by
  decide

/-- After a call that is not blocked and whose enumeration resolves, a second
call for the same key within the cooldown returns false, changes nothing and
issues no storage call. -/
theorem deleteCookieViaAPI_cooldown (st : BgState) (store store2 : CookieStore)
    (now now2 : Int) (cookieName url url2 domain : Str)
    (hnb : isBlocked st now (blockKey domain cookieName) = false)
    (hres : store.getAllRejects = false)
    (hlt : now2 < now + ATTEMPT_COOLDOWN) :
    deleteCookieViaAPI (deleteCookieViaAPI st store now cookieName url domain).2.1 store2 now2
      cookieName url2 domain =
      (false, (deleteCookieViaAPI st store now cookieName url domain).2.1, []) := by
  apply deleteCookieViaAPI_blocked
  exact isBlocked_in_cooldown _ now now2 _ _
    (deleteCookieViaAPI_records st store now cookieName url domain hnb hres) rfl hlt

/-! ## Attempt record, recreation listener, sweep -/

/-- C11 (failing input): a call on fresh globals at time 1000 whose enumeration
rejects is not blocked, yet it leaves no attempt record for the key, where the
record required is timestamp 1000 with one attempt. -/
theorem deleteCookieViaAPI_error_not_recorded :
    isBlocked freshState 1000 (blockKey "example.com".toList "_ga".toList) = false ∧
    nextAttempt freshState 1000 (blockKey "example.com".toList "_ga".toList) = ⟨1000, 1⟩ ∧
    mapGet
      (deleteCookieViaAPI freshState rejectingStore 1000 "_ga".toList
        "https://example.com/".toList "example.com".toList).2.1.recentlyAttempted
      (blockKey "example.com".toList "_ga".toList) = none := by
  decide

/-- C12: for a change event that carries a cookie, the listener issues exactly
one removal when the event is a creation and the key built from the cookie
domain (leading dot stripped) and name is in the blocklist; the removal is for
the cookie name in the cookie store of the event, with the scheme taken from
the secure flag followed by the stripped domain and the path. For a removal
event, for a key outside the blocklist, and for an event without a cookie, it
issues nothing. -/
theorem onCookieChanged_removal (st : BgState) (removed : Bool) (cookie : Cookie) :
    (removed = false →
      blockKey (stripLeadingDot cookie.domain) cookie.name ∈ st.blockedCookies →
      onCookieChanged st ⟨removed, some cookie⟩ =
        [StorageOp.remove
          ⟨(if cookie.secure then "https://".toList else "http://".toList) ++
              stripLeadingDot cookie.domain ++ cookie.path,
            cookie.name, cookie.storeId⟩]) ∧
    (removed = true → onCookieChanged st ⟨removed, some cookie⟩ = []) ∧
    (blockKey (stripLeadingDot cookie.domain) cookie.name ∉ st.blockedCookies →
      onCookieChanged st ⟨removed, some cookie⟩ = []) ∧
    onCookieChanged st ⟨removed, none⟩ = [] := by
  refine ⟨?_, ?_, ?_, rfl⟩
  · intro hr hk
    unfold onCookieChanged
    simp only [hr, Bool.not_false, if_true, hk]
  · intro hr
    unfold onCookieChanged
    simp [hr]
  · intro hk
    unfold onCookieChanged
    cases removed <;> simp [hk]

theorem sweepLoop_eq (now : Int) (l : List (Str × AttemptData)) (st : BgState) :
    sweepLoop now l st =
      ⟨st.blockedCookies.filter (fun k =>
          !(l.any (fun e =>
            decide (now - e.2.timestamp > BLOCKLIST_CLEANUP_INTERVAL) && decide (e.1 = k)))),
        st.recentlyAttempted.filter (fun r =>
          !(l.any (fun e =>
            decide (now - e.2.timestamp > BLOCKLIST_CLEANUP_INTERVAL) && decide (e.1 = r.1))))⟩ := by
  induction l generalizing st with
  | nil =>
    unfold sweepLoop
    simp only [List.any_nil, Bool.not_false, List.filter_true]
  | cons e rest ih =>
    obtain ⟨key, data⟩ := e
    unfold sweepLoop
    by_cases hexp : now - data.timestamp > BLOCKLIST_CLEANUP_INTERVAL
    · rw [if_pos hexp, ih]
      simp only [setDelete, mapDelete, List.filter_filter, List.any_cons, decide_eq_true hexp,
        Bool.true_and]
      congr 1
      · apply List.filter_congr
        intro k _
        by_cases hk : key = k
        · simp [hk]
        · have hk2 : ¬ k = key := fun h => hk h.symm
          simp [hk, hk2]
      · apply List.filter_congr
        intro r _
        by_cases hk : key = r.1
        · simp [hk]
        · have hk2 : ¬ r.1 = key := fun h => hk h.symm
          simp [hk, hk2]
    · rw [if_neg hexp, ih]
      simp only [List.any_cons, decide_eq_false hexp, Bool.false_and, Bool.false_or]

theorem any_expired_eq (now : Int) (blocked : List Str) (m : List (Str × AttemptData))
    (hu : UniqueKeys m) (k : Str) :
    m.any (fun e =>
      decide (now - e.2.timestamp > BLOCKLIST_CLEANUP_INTERVAL) && decide (e.1 = k)) =
      expiredAt ⟨blocked, m⟩ now k := by
  induction m with
  | nil => rfl
  | cons e rest ih =>
    unfold UniqueKeys at hu
    rw [List.map_cons, List.nodup_cons] at hu
    obtain ⟨hnot, hrest⟩ := hu
    have ih2 := ih hrest
    unfold expiredAt mapGet at ih2 ⊢
    dsimp only at ih2 ⊢
    rw [List.any_cons]
    by_cases hk : e.1 = k
    · rw [List.find?_cons_of_pos _ (by simpa using hk)]
      have hnone : rest.any (fun e =>
          decide (now - e.2.timestamp > BLOCKLIST_CLEANUP_INTERVAL) && decide (e.1 = k))
          = false := by
        rw [List.any_eq_false]
        intro x hx hcond
        rw [Bool.and_eq_true] at hcond
        have hxk : x.1 = k := of_decide_eq_true hcond.2
        apply hnot
        rw [hk, ← hxk]
        exact List.mem_map_of_mem (fun e => e.1) hx
      rw [hnone, decide_eq_true hk, Bool.and_true, Bool.or_false]
      rfl
    · rw [List.find?_cons_of_neg _ (by simpa using hk), decide_eq_false hk, Bool.and_false,
        Bool.false_or]
      exact ih2

theorem mapGet_filter_key (m : List (Str × AttemptData)) (q : Str → Bool) (key : Str) :
    mapGet (m.filter (fun e => q e.1)) key = if q key then mapGet m key else none := by
  unfold mapGet
  rw [List.find?_filter]
  by_cases hq : q key = true
  · rw [if_pos hq]
    congr 2
    funext a
    by_cases ha : a.1 = key
    · rw [ha, hq, decide_eq_true rfl]; rfl
    · rw [decide_eq_false ha]
      exact decide_eq_false (fun h => absurd h.2 (by decide))
  · rw [if_neg hq]
    have : m.find? (fun a => decide (q a.1 = true ∧ decide (a.1 = key) = true)) = none := by
      rw [List.find?_eq_none]
      intro a _ hcond
      have hc := of_decide_eq_true hcond
      have ha : a.1 = key := of_decide_eq_true hc.2
      rw [ha] at hc
      exact hq hc.1
    rw [this]; rfl

/-- C13: a sweep at time `now` over a well-formed attempt map removes exactly
the keys whose record has `now - timestamp > 300000`, removes those keys from
the blocklist, and leaves every other record and every other blocklist entry
as it was, in its place. -/
theorem sweep_evicts_expired (st : BgState) (now : Int)
    (hu : UniqueKeys st.recentlyAttempted) :
    BLOCKLIST_CLEANUP_INTERVAL = 300000 ∧
    (∀ key : Str, mapGet (sweep st now).recentlyAttempted key =
      if expiredAt st now key then none else mapGet st.recentlyAttempted key) ∧
    (∀ key : Str, key ∈ (sweep st now).blockedCookies ↔
      key ∈ st.blockedCookies ∧ expiredAt st now key = false) ∧
    (sweep st now).recentlyAttempted =
      st.recentlyAttempted.filter (fun e => !expiredAt st now e.1) ∧
    (sweep st now).blockedCookies =
      st.blockedCookies.filter (fun k => !expiredAt st now k) := by
  have hmap : (sweep st now).recentlyAttempted =
      st.recentlyAttempted.filter (fun e => !expiredAt st now e.1) := by
    unfold sweep
    rw [sweepLoop_eq]
    apply List.filter_congr
    intro r _
    rw [any_expired_eq now st.blockedCookies st.recentlyAttempted hu r.1]
  have hset : (sweep st now).blockedCookies =
      st.blockedCookies.filter (fun k => !expiredAt st now k) := by
    unfold sweep
    rw [sweepLoop_eq]
    apply List.filter_congr
    intro k _
    rw [any_expired_eq now st.blockedCookies st.recentlyAttempted hu k]
  refine ⟨rfl, ?_, ?_, hmap, hset⟩
  · intro key
    rw [hmap, mapGet_filter_key st.recentlyAttempted (fun k => !expiredAt st now k) key]
    cases expiredAt st now key <;> rfl
  · intro key
    rw [hset, List.mem_filter]
    cases expiredAt st now key <;> simp

/-- C13 (witness): two records at time 400000, one last touched at 0 and one at
200000; the first and its blocklist entry go, the second stays. -/
theorem sweep_evicts_expired_witness :
    sweep ⟨["a.com:x".toList, "b.com:y".toList],
        [("a.com:x".toList, ⟨0, 1⟩), ("b.com:y".toList, ⟨200000, 2⟩)]⟩ 400000 =
      ⟨["b.com:y".toList], [("b.com:y".toList, ⟨200000, 2⟩)]⟩ ∧
    mapGet (sweep ⟨["a.com:x".toList, "b.com:y".toList],
        [("a.com:x".toList, ⟨0, 1⟩), ("b.com:y".toList, ⟨200000, 2⟩)]⟩
        400000).recentlyAttempted "a.com:x".toList = none :=
  have h := sweep_evicts_expired
    ⟨["a.com:x".toList, "b.com:y".toList],
      [("a.com:x".toList, ⟨0, 1⟩), ("b.com:y".toList, ⟨200000, 2⟩)]⟩ 400000 (by unfold UniqueKeys; decide)
  ⟨by decide, (h.2.1 "a.com:x".toList).trans (by decide)⟩

/-- The method `Map.prototype.set` keeps the attempt map well-formed. -/
theorem mapSet_uniqueKeys (m : List (Str × AttemptData)) (key : Str) (v : AttemptData)
    (hu : UniqueKeys m) : UniqueKeys (mapSet m key v) := by
  unfold UniqueKeys mapSet at *
  split
  · have : (m.map (fun e => if e.1 = key then (key, v) else e)).map (fun e => e.1)
        = m.map (fun e => e.1) := by
      rw [List.map_map]
      apply List.map_congr_left
      intro e _
      by_cases he : e.1 = key
      · simp [he]
      · simp [he]
    rw [this]; exact hu
  · rename_i hany
    rw [List.map_append, List.nodup_append]
    refine ⟨hu, by simp, ?_⟩
    intro a ha hb
    rw [List.map_cons, List.map_nil, List.mem_singleton] at hb
    apply hany
    rw [List.mem_map] at ha
    obtain ⟨e, he, hea⟩ := ha
    exact List.any_eq_true.mpr ⟨e, he, by simpa [hb] using hea⟩

/-! ## Review queue -/

theorem hasPending_iff (queue : List ReviewItem) (name domain : Str) :
    hasPending queue name domain = true ↔
      ∃ item ∈ queue, item.cookieName = name ∧ item.domain = domain ∧
        item.status = "pending" := by
  unfold hasPending
  rw [List.find?_isSome]
  constructor
  · rintro ⟨item, hmem, hp⟩
    simp only [Bool.and_eq_true, decide_eq_true_eq] at hp
    exact ⟨item, hmem, hp.1.1, hp.1.2, hp.2⟩
  · rintro ⟨item, hmem, h1, h2, h3⟩
    refine ⟨item, hmem, ?_⟩
    simp only [Bool.and_eq_true, decide_eq_true_eq]
    exact ⟨⟨h1, h2⟩, h3⟩

/-- C14: `addToReviewQueue` appends one new pending item for the cookie exactly
when the stored queue holds no pending item with the same cookie name and
domain; otherwise it leaves the queue, and so the pending count, as it was.
Items of that name and domain in a terminal state do not count in the test and
stay in the queue. -/
theorem addToReviewQueue_pending_unique (queue : List ReviewItem) (now : Nat) (isoNow : Str)
    (cookie : CookieArg) (classification : ClassificationArg) :
    ((¬ ∃ item ∈ queue, item.cookieName = cookie.name ∧ item.domain = cookie.domain ∧
        item.status = "pending") →
      ∃ newItem : ReviewItem,
        addToReviewQueue queue now isoNow (some cookie) (some classification) =
          Except.ok (queue ++ [newItem]) ∧
        newItem.cookieName = cookie.name ∧ newItem.domain = cookie.domain ∧
        newItem.status = "pending" ∧
        pendingCount (queue ++ [newItem]) = pendingCount queue + 1) ∧
    ((∃ item ∈ queue, item.cookieName = cookie.name ∧ item.domain = cookie.domain ∧
        item.status = "pending") →
      addToReviewQueue queue now isoNow (some cookie) (some classification) =
        Except.ok queue) := by
  constructor
  · intro hno
    have hp : hasPending queue cookie.name cookie.domain = false := by
      cases h : hasPending queue cookie.name cookie.domain
      · rfl
      · exact absurd ((hasPending_iff _ _ _).mp h) hno
    unfold addToReviewQueue
    dsimp only
    rw [hp]
    refine ⟨_, rfl, rfl, rfl, rfl, ?_⟩
    unfold pendingCount
    rw [List.filter_append, List.length_append]
    rfl
  · intro hex
    have hp : hasPending queue cookie.name cookie.domain = true :=
      (hasPending_iff _ _ _).mpr hex
    unfold addToReviewQueue
    dsimp only
    rw [hp]
    rfl

/-- C15 (failing input): scenario D. `cleanupWithAI` queues `xk_9f2`
(confidence 0.55) as a flat record and deletes nothing; the listener hands the
record to `addCookiesToReviewQueue`, which reads its missing properties
`cookie` and `classification`, so `addToReviewQueue` raises a `TypeError`: the
response reports failure and the stored queue stays empty. The same happens
for every message whose first element is a flat record. -/
theorem review_message_of_pass_rejected :
    cleanupWithAI ⟨true, false, true, true, true, true⟩ "example.com".toList
      "xk_9f2=abc".toList
      (fun _ _ _ => some ⟨"analytics", 0.55, "opaque identifier".toList⟩) =
      ⟨[], [sampleUncertainCookie]⟩ ∧
    handleAddToReviewQueue [] 1700000000000 "2023-11-14T22:13:20.000Z".toList
      [QueuePayload.flat sampleUncertainCookie] = (false, []) ∧
    pendingCount (handleAddToReviewQueue [] 1700000000000 "2023-11-14T22:13:20.000Z".toList
      [QueuePayload.flat sampleUncertainCookie]).2 = 0 ∧
    (∀ (queue : List ReviewItem) (now : Nat) (isoNow : Str) (record : UncertainCookie)
      (rest : List QueuePayload),
      addCookiesToReviewQueue queue now isoNow (QueuePayload.flat record :: rest) =
        (some undefinedReadError, queue)) := by
  refine ⟨by decide!, by decide, by decide, ?_⟩
  intro queue now isoNow record rest
  rfl

theorem markDecided_find (cookieId : Str) (decision : String) (isoNow : Str)
    (queue : List ReviewItem) (item : ReviewItem)
    (hfind : queue.find? (fun c => c.id = cookieId) = some item) :
    (markDecided cookieId decision isoNow queue).find? (fun c => c.id = cookieId) =
      some { item with status := decision, decidedAt := some isoNow } ∧
    (markDecided cookieId decision isoNow queue).length = queue.length := by
  induction queue with
  | nil => exact absurd hfind (by simp)
  | cons c rest ih =>
    unfold markDecided
    by_cases hc : c.id = cookieId
    · rw [if_pos hc]
      rw [List.find?_cons_of_pos _ (by simpa using hc)] at hfind
      have hci : c = item := Option.some.inj hfind
      subst hci
      refine ⟨List.find?_cons_of_pos _ (by simpa using hc), rfl⟩
    · rw [if_neg hc]
      rw [List.find?_cons_of_neg _ (by simpa using hc)] at hfind
      obtain ⟨h1, h2⟩ := ih hfind
      refine ⟨?_, ?_⟩
      · rw [List.find?_cons_of_neg _ (by simpa using hc)]
        exact h1
      · rw [List.length_cons, List.length_cons, h2]

/-- C16 (as amended): when the stored queue contains an item with the given
id, `handleCookieDecision(id, 'delete')` gives the first such item the status
`delete` and a decision timestamp, keeps the length of the queue, and calls
`deleteCookieViaAPI` with the cookie name and domain of the item once for each
open tab, in order, whose url contains the item domain or whose host name is
contained in the item domain; without such a tab it makes no call. -/
theorem handleCookieDecision_delete (queue : List ReviewItem) (tabs : List Tab) (isoNow : Str)
    (cookieId : Str) (item : ReviewItem)
    (hfind : queue.find? (fun c => c.id = cookieId) = some item) :
    (handleCookieDecision queue tabs isoNow cookieId "delete").1.find?
        (fun c => c.id = cookieId) =
      some { item with status := "delete", decidedAt := some isoNow } ∧
    (handleCookieDecision queue tabs isoNow cookieId "delete").1.length = queue.length ∧
    (handleCookieDecision queue tabs isoNow cookieId "delete").2 =
      (tabs.filter (tabMatches item)).map
        (fun tab => ⟨item.cookieName, tab.url.getD [], item.domain⟩) ∧
    ((handleCookieDecision queue tabs isoNow cookieId "delete").2 = [] ↔
      ∀ tab ∈ tabs, tabMatches item tab = false) := by
  have hdel : (handleCookieDecision queue tabs isoNow cookieId "delete").2 =
      (tabs.filter (tabMatches item)).map
        (fun tab => ⟨item.cookieName, tab.url.getD [], item.domain⟩) := by
    unfold handleCookieDecision
    rw [hfind]
    dsimp only
    rw [if_pos rfl]
    induction tabs with
    | nil => rfl
    | cons tab rest ih =>
      rw [List.filterMap_cons, List.filter_cons]
      by_cases ht : tabMatches item tab = true
      · rw [if_pos ht, if_pos ht, List.map_cons, ih]
      · rw [if_neg ht, if_neg ht, ih]
  have hq : (handleCookieDecision queue tabs isoNow cookieId "delete").1 =
      markDecided cookieId "delete" isoNow queue := by
    unfold handleCookieDecision
    rw [hfind]
  refine ⟨?_, ?_, hdel, ?_⟩
  · rw [hq]; exact (markDecided_find cookieId "delete" isoNow queue item hfind).1
  · rw [hq]; exact (markDecided_find cookieId "delete" isoNow queue item hfind).2
  · rw [hdel, List.map_eq_nil_iff, List.filter_eq_nil_iff]
    constructor
    · intro h tab ht
      cases hm : tabMatches item tab
      · rfl
      · exact absurd hm (h tab ht)
    · intro h tab ht hm
      rw [h tab ht] at hm
      exact absurd hm (by decide)

/-- C16 (witness): the item of scenario D with one tab open on `example.com`. -/
theorem handleCookieDecision_delete_witness :
    (handleCookieDecision [sampleReviewItem]
      [⟨some "https://example.com/page".toList, "example.com".toList⟩]
      "2023-11-14T22:20:00.000Z".toList sampleReviewItem.id "delete").2 =
      [⟨"xk_9f2".toList, "https://example.com/page".toList, "example.com".toList⟩] :=
  (handleCookieDecision_delete [sampleReviewItem]
    [⟨some "https://example.com/page".toList, "example.com".toList⟩]
    "2023-11-14T22:20:00.000Z".toList sampleReviewItem.id sampleReviewItem
    (by decide!)).2.2.1.trans (by decide!)

/-- C16 (counterexample): the item of scenario D is in the queue, the only open
tab shows `other.org`; the decision `delete` marks the item and makes no call of
`deleteCookieViaAPI`. The same holds with no tab open. -/
theorem handleCookieDecision_no_matching_tab :
    handleCookieDecision [sampleReviewItem]
      [⟨some "https://other.org/".toList, "other.org".toList⟩]
      "2023-11-14T22:20:00.000Z".toList sampleReviewItem.id "delete" =
      ([{ sampleReviewItem with
          status := "delete", decidedAt := some "2023-11-14T22:20:00.000Z".toList }], []) ∧
    (handleCookieDecision [sampleReviewItem] []
      "2023-11-14T22:20:00.000Z".toList sampleReviewItem.id "delete").2 = [] := by
  decide!

/-! ## External classifier -/

/-- One step of an initialised call of `classifyWithAI`, by the outcome of its
request. -/
theorem classifyWithAI_step (fetch : Nat → FetchOutcome) (sent retryCount : Nat) :
    classifyWithAI fetch true sent retryCount =
      match fetch sent with
      | FetchOutcome.networkError message => ⟨AIReturn.record (aiFailureFallback message), true, sent + 1, []⟩
      | FetchOutcome.httpError _ (some message) =>
        ⟨AIReturn.record (aiFailureFallback message), true, sent + 1, []⟩
      | FetchOutcome.httpError status none =>
        if status = 429 ∧ retryCount < MAX_RETRIES then
          ⟨(classifyWithAI fetch true (sent + 1) (retryCount + 1)).result,
            (classifyWithAI fetch true (sent + 1) (retryCount + 1)).aiInitialized,
            (classifyWithAI fetch true (sent + 1) (retryCount + 1)).requests,
            3000 :: (classifyWithAI fetch true (sent + 1) (retryCount + 1)).waits⟩
        else ⟨AIReturn.record
            (aiFailureFallback ("API error: ".toList ++ (Nat.repr status).toList)), true,
          sent + 1, []⟩
      | FetchOutcome.okBody (Except.error message) =>
        ⟨AIReturn.record (aiFailureFallback message), true, sent + 1, []⟩
      | FetchOutcome.okBody (Except.ok result) =>
        ⟨validateResponse result, true, sent + 1, []⟩ := by
  rw [classifyWithAI]
  simp only [Bool.not_true, Bool.false_and, Bool.false_eq_true, if_false, if_true]
  split <;> simp_all

/-- A cold start whose probe succeeds continues as an initialised call from
the next request. -/
theorem classifyWithAI_cold_ok (fetch : Nat → FetchOutcome) (sent retryCount : Nat)
    (hprobe : initializeAI (fetch sent) = true) :
    classifyWithAI fetch false sent retryCount =
      classifyWithAI fetch true (sent + 1) retryCount := by
  rw [classifyWithAI, classifyWithAI]
  simp only [hprobe, Bool.not_true, Bool.and_false, Bool.false_and, Bool.false_eq_true,
    if_false, if_true]

/-- A cold start whose probe fails returns the cold-start fallback. -/
theorem classifyWithAI_cold_fail (fetch : Nat → FetchOutcome) (sent retryCount : Nat)
    (hprobe : initializeAI (fetch sent) = false) :
    classifyWithAI fetch false sent retryCount =
      ⟨AIReturn.record ⟨"functional", 0.3, "AI not available".toList⟩, false, sent + 1, []⟩ := by
  rw [classifyWithAI]
  simp only [hprobe, Bool.not_false, Bool.and_self, if_true]

theorem validatedConfidence_range (parsed : JsNum) :
    0 ≤ validatedConfidence parsed ∧ validatedConfidence parsed ≤ 1 := by
  unfold validatedConfidence
  split
  · norm_num
  · norm_num
  · norm_num
  · rename_i q
    by_cases hq : q < 0 ∨ q > 1
    · rw [if_pos hq]; norm_num
    · rw [if_neg hq]
      rw [not_or, not_lt, not_lt] at hq
      exact hq

/-- The validation of an answer that is an object: the category returned is
one of essential, analytics, advertising, personalization (a category of the
list is kept, any other value becomes personalization), and the confidence
returned lies between 0 and 1 (a number in that interval is kept; `NaN`, an
infinite, a negative and a greater-than-1 number become 0.5). -/
theorem validateResponse_object (result : ParsedObject) :
    (∃ r : AIResult, validateResponse (ParsedResponse.object result) = AIReturn.record r ∧
      r.category ∈ ["essential", "analytics", "advertising", "personalization"] ∧
      0 ≤ r.confidence ∧ r.confidence ≤ 1 ∧ r.reasoning = result.reasoning) ∧
    (∀ s : Str, result.category = JsVal.str s →
      String.mk s ∈ ["essential", "analytics", "advertising", "personalization"] →
      (validateResponse (ParsedResponse.object result)).category = some (String.mk s)) ∧
    ((∀ s : Str, result.category = JsVal.str s →
        String.mk s ∉ ["essential", "analytics", "advertising", "personalization"]) →
      (validateResponse (ParsedResponse.object result)).category = some "personalization") ∧
    (∀ q : ℚ, result.confidence = JsNum.fin q → 0 ≤ q → q ≤ 1 →
      (validateResponse (ParsedResponse.object result)).confidence = some q) ∧
    (∀ q : ℚ, result.confidence = JsNum.fin q → (q < 0 ∨ 1 < q) →
      (validateResponse (ParsedResponse.object result)).confidence = some 0.5) ∧
    ((result.confidence = JsNum.nan ∨ result.confidence = JsNum.posInf ∨
        result.confidence = JsNum.negInf) →
      (validateResponse (ParsedResponse.object result)).confidence = some 0.5) := by
  refine ⟨⟨_, rfl, ?_, (validatedConfidence_range _).1, (validatedConfidence_range _).2, rfl⟩,
    ?_, ?_, ?_, ?_, ?_⟩
  · unfold validatedCategory
    dsimp only
    split
    · rename_i s _
      by_cases hs : String.mk s ∈ validCategories
      · rw [if_pos hs]; exact hs
      · rw [if_neg hs]; decide
    · decide
  · intro s hcat hs
    unfold validateResponse AIReturn.category validatedCategory
    dsimp only
    rw [hcat]
    dsimp only
    rw [if_pos (show String.mk s ∈ validCategories from hs)]
  · intro hno
    unfold validateResponse AIReturn.category validatedCategory
    dsimp only
    split
    · rename_i s hcat
      rw [if_neg (show String.mk s ∉ validCategories from hno s hcat)]
    · rfl
  · intro q hc h0 h1
    unfold validateResponse AIReturn.confidence
    dsimp only
    rw [hc]
    unfold validatedConfidence
    dsimp only
    rw [if_neg]
    rw [not_or, not_lt, not_lt]
    exact ⟨h0, h1⟩
  · intro q hp hq
    unfold validateResponse AIReturn.confidence
    dsimp only
    rw [hp]
    unfold validatedConfidence
    dsimp only
    rw [if_pos hq]
  · intro hp
    unfold validateResponse AIReturn.confidence
    dsimp only
    rcases hp with hp | hp | hp <;> rw [hp] <;> rfl

/-- C17 (failing input): the classifier answers with the text `5`, which
`JSON.parse` reads as the number 5. The validation reads `undefined` from it
and its two property writes have no effect on a number, so an initialised call
of `classifyWithAI` returns the number 5 itself, a value without category and
without confidence. The answers `"analytics"` and `true` come back the same
way. -/
theorem classifyWithAI_returns_primitive :
    (classifyWithAI
      (fun _ => FetchOutcome.okBody
        (Except.ok (ParsedResponse.primitive (Primitive.number (JsNum.fin 5)))))
      true 0 0).result = AIReturn.primitive (Primitive.number (JsNum.fin 5)) ∧
    (classifyWithAI
      (fun _ => FetchOutcome.okBody
        (Except.ok (ParsedResponse.primitive (Primitive.number (JsNum.fin 5)))))
      true 0 0).result.category = none ∧
    (classifyWithAI
      (fun _ => FetchOutcome.okBody
        (Except.ok (ParsedResponse.primitive (Primitive.number (JsNum.fin 5)))))
      true 0 0).result.confidence = none ∧
    (classifyWithAI
      (fun _ => FetchOutcome.okBody
        (Except.ok (ParsedResponse.primitive (Primitive.string "analytics".toList))))
      true 0 0).result = AIReturn.primitive (Primitive.string "analytics".toList) ∧
    (classifyWithAI
      (fun _ => FetchOutcome.okBody
        (Except.ok (ParsedResponse.primitive (Primitive.boolean true))))
      true 0 0).result = AIReturn.primitive (Primitive.boolean true) := by
  refine ⟨?_, ?_, ?_, ?_, ?_⟩ <;> rw [classifyWithAI_step] <;> rfl

theorem classifyWithAI_allFail (fetch : Nat → FetchOutcome)
    (hfail : ∀ (i : Nat) (r : ParsedResponse), fetch i ≠ FetchOutcome.okBody (Except.ok r))
    (n : Nat) : ∀ sent retryCount : Nat, MAX_RETRIES - retryCount = n →
    (classifyWithAI fetch true sent retryCount).result.category = some "personalization" ∧
    (classifyWithAI fetch true sent retryCount).result.confidence = some 0.3 := by
  induction n with
  | zero =>
    intro sent retryCount hn
    rw [classifyWithAI_step]
    split
    · exact ⟨rfl, rfl⟩
    · exact ⟨rfl, rfl⟩
    · rw [if_neg (by omega)]
      exact ⟨rfl, rfl⟩
    · exact ⟨rfl, rfl⟩
    · rename_i r hr
      exact absurd hr (hfail sent r)
  | succ k ih =>
    intro sent retryCount hn
    rw [classifyWithAI_step]
    split
    · exact ⟨rfl, rfl⟩
    · exact ⟨rfl, rfl⟩
    · rename_i status _
      by_cases hs : status = 429 ∧ retryCount < MAX_RETRIES
      · rw [if_pos hs]
        exact ih (sent + 1) (retryCount + 1) (by omega)
      · rw [if_neg hs]
        exact ⟨rfl, rfl⟩
    · exact ⟨rfl, rfl⟩
    · rename_i r hr
      exact absurd hr (hfail sent r)

/-- C18: a call of `classifyWithAI` always returns a classification. When the
classifier cannot be initialised the result is category functional with
confidence 0.3. For an initialised classifier, a request that ends in a
network error, in a non-OK status that is not retried, or in an answer whose
body cannot be read or parsed gives category personalization with confidence
0.3, and so does every call all of whose requests fail. -/
theorem classifyWithAI_fallbacks (fetch : Nat → FetchOutcome) (sent retryCount : Nat) :
    (initializeAI (fetch sent) = false →
      (classifyWithAI fetch false sent retryCount).result =
        AIReturn.record ⟨"functional", 0.3, "AI not available".toList⟩) ∧
    (∀ message : Str, fetch sent = FetchOutcome.networkError message →
      (classifyWithAI fetch true sent retryCount).result =
        AIReturn.record ⟨"personalization", 0.3, "AI failed: ".toList ++ message⟩) ∧
    (∀ (status : Nat) (textError : Option Str),
      fetch sent = FetchOutcome.httpError status textError → status ≠ 429 →
      (classifyWithAI fetch true sent retryCount).result.category = some "personalization" ∧
      (classifyWithAI fetch true sent retryCount).result.confidence = some 0.3) ∧
    (∀ message : Str, fetch sent = FetchOutcome.okBody (Except.error message) →
      (classifyWithAI fetch true sent retryCount).result =
        AIReturn.record ⟨"personalization", 0.3, "AI failed: ".toList ++ message⟩) ∧
    ((∀ (i : Nat) (r : ParsedResponse), fetch i ≠ FetchOutcome.okBody (Except.ok r)) →
      (classifyWithAI fetch true sent retryCount).result.category = some "personalization" ∧
      (classifyWithAI fetch true sent retryCount).result.confidence = some 0.3) := by
  refine ⟨?_, ?_, ?_, ?_, ?_⟩
  · intro hp
    rw [classifyWithAI_cold_fail fetch sent retryCount hp]
  · intro message hf
    rw [classifyWithAI_step, hf]
    rfl
  · intro status textError hf hs
    rw [classifyWithAI_step, hf]
    cases textError with
    | some message => exact ⟨rfl, rfl⟩
    | none =>
      dsimp only
      rw [if_neg (fun h => hs h.1)]
      exact ⟨rfl, rfl⟩
  · intro message hf
    rw [classifyWithAI_step, hf]
    rfl
  · intro hfail
    exact classifyWithAI_allFail fetch hfail _ sent retryCount rfl

theorem classifyWithAI_requests_le (fetch : Nat → FetchOutcome) (n : Nat) :
    ∀ sent retryCount : Nat, MAX_RETRIES - retryCount = n →
    (classifyWithAI fetch true sent retryCount).requests ≤ sent + n + 1 := by
  induction n with
  | zero =>
    intro sent retryCount hn
    rw [classifyWithAI_step]
    split
    · exact Nat.le_refl _
    · exact Nat.le_refl _
    · rw [if_neg (by omega)]
    · exact Nat.le_refl _
    · exact Nat.le_refl _
  | succ k ih =>
    intro sent retryCount hn
    rw [classifyWithAI_step]
    split
    · dsimp only; omega
    · dsimp only; omega
    · rename_i status _
      by_cases hs : status = 429 ∧ retryCount < MAX_RETRIES
      · rw [if_pos hs]
        have := ih (sent + 1) (retryCount + 1) (by omega)
        dsimp only
        omega
      · rw [if_neg hs]
        dsimp only; omega
    · dsimp only; omega
    · dsimp only; omega

/-- C19 (as amended): when the classifier endpoint keeps answering with status
429, a call of `classifyWithAI` with the classifier initialised retries twice
(`MAX_RETRIES` is 2), each time after a wait of 3000 ms, and then gives up: it
sends exactly three requests before returning the fallback classification. No
initialised call sends more than three requests, and a cold start adds at most
the one probe request of `initializeAI`. -/
theorem classifyWithAI_rate_limit (fetch : Nat → FetchOutcome) :
    MAX_RETRIES = 2 ∧
    ((∀ i : Nat, fetch i = FetchOutcome.httpError 429 none) →
      (classifyWithAI fetch true 0).requests = 3 ∧
      (classifyWithAI fetch true 0).waits = [3000, 3000] ∧
      (classifyWithAI fetch true 0).result =
        AIReturn.record ⟨"personalization", 0.3, "AI failed: API error: 429".toList⟩) ∧
    (classifyWithAI fetch true 0).requests ≤ 3 ∧
    (classifyWithAI fetch false 0).requests ≤ 4 := by
  refine ⟨rfl, ?_, ?_, ?_⟩
  · intro h429
    have h2 : classifyWithAI fetch true 2 2 =
        ⟨AIReturn.record ⟨"personalization", 0.3, "AI failed: API error: 429".toList⟩,
          true, 3, []⟩ := by
      rw [classifyWithAI_step, h429 2]
      dsimp only
      rw [if_neg (by decide)]
      decide!
    have h1 : classifyWithAI fetch true 1 1 =
        ⟨AIReturn.record ⟨"personalization", 0.3, "AI failed: API error: 429".toList⟩,
          true, 3, [3000]⟩ := by
      rw [classifyWithAI_step, h429 1]
      dsimp only
      rw [if_pos (by decide), h2]
    have h0 : classifyWithAI fetch true 0 0 =
        ⟨AIReturn.record ⟨"personalization", 0.3, "AI failed: API error: 429".toList⟩,
          true, 3, [3000, 3000]⟩ := by
      rw [classifyWithAI_step, h429 0]
      dsimp only
      rw [if_pos (by decide), h1]
    rw [h0]
    exact ⟨rfl, rfl, rfl⟩
  · exact classifyWithAI_requests_le fetch 2 0 0 rfl
  · by_cases hp : initializeAI (fetch 0) = true
    · rw [classifyWithAI_cold_ok fetch 0 0 hp]
      exact classifyWithAI_requests_le fetch 2 1 0 rfl
    · have hp2 : initializeAI (fetch 0) = false := by
        cases h : initializeAI (fetch 0)
        · rfl
        · exact absurd h hp
      rw [classifyWithAI_cold_fail fetch 0 0 hp2]
      decide

/-- C19 (counterexample): with every request answered by status 429, an
initialised call of `classifyWithAI` sends three requests, one more than the
two of a single retry. -/
theorem classifyWithAI_sends_three_requests :
    (classifyWithAI (fun _ => FetchOutcome.httpError 429 none) true 0).requests = 3 ∧
    ¬ (classifyWithAI (fun _ => FetchOutcome.httpError 429 none) true 0).requests ≤ 2 := by
  have h := (classifyWithAI_step (fun _ => FetchOutcome.httpError 429 none) 0 0)
  have h1 := (classifyWithAI_step (fun _ => FetchOutcome.httpError 429 none) 1 1)
  have h2 := (classifyWithAI_step (fun _ => FetchOutcome.httpError 429 none) 2 2)
  dsimp only at h h1 h2
  rw [if_neg (by decide)] at h2
  rw [if_pos (by decide), h2] at h1
  rw [if_pos (by decide), h1] at h
  rw [h]
  decide

/-! ## Activity log -/

/-- C20: `handleLogAction` puts the new entry at the front of the log of the
mode of the sender and keeps the first 1000 entries: afterwards that log has
at most 1000 entries, the new entry is first, the kept entries are the most
recent ones in their order (the new log is the first 1000 of the new entry
followed by the old log, nothing being dropped while that fits), and the log
of the other mode is unchanged. -/
theorem handleLogAction_capped (storage : LogStorage) (logEntry : LogEntry) :
    (handleLogAction storage logEntry false).logs = (logEntry :: storage.logs).take 1000 ∧
    (handleLogAction storage logEntry false).incognito_logs = storage.incognito_logs ∧
    (handleLogAction storage logEntry true).incognito_logs =
      (logEntry :: storage.incognito_logs).take 1000 ∧
    (handleLogAction storage logEntry true).logs = storage.logs ∧
    (handleLogAction storage logEntry false).logs.length ≤ 1000 ∧
    (handleLogAction storage logEntry true).incognito_logs.length ≤ 1000 ∧
    (handleLogAction storage logEntry false).logs.head? = some logEntry ∧
    (handleLogAction storage logEntry true).incognito_logs.head? = some logEntry ∧
    (storage.logs.length < 1000 →
      (handleLogAction storage logEntry false).logs = logEntry :: storage.logs) ∧
    (storage.incognito_logs.length < 1000 →
      (handleLogAction storage logEntry true).incognito_logs =
        logEntry :: storage.incognito_logs) := by
  have key : ∀ l : List LogEntry,
      (if (logEntry :: l).length > 1000 then (logEntry :: l).take 1000 else logEntry :: l) =
        (logEntry :: l).take 1000 := by
    intro l
    split
    · rfl
    · rename_i h
      exact (List.take_of_length_le (by omega)).symm
  have hn : (handleLogAction storage logEntry false).logs =
      (logEntry :: storage.logs).take 1000 := by
    unfold handleLogAction
    simp only [Bool.false_eq_true, if_false]
    exact key _
  have hi : (handleLogAction storage logEntry true).incognito_logs =
      (logEntry :: storage.incognito_logs).take 1000 := by
    unfold handleLogAction
    simp only [if_true]
    exact key _
  have hn2 : (handleLogAction storage logEntry false).incognito_logs =
      storage.incognito_logs := by
    unfold handleLogAction
    simp only [Bool.false_eq_true, if_false]
  have hi2 : (handleLogAction storage logEntry true).logs = storage.logs := by
    unfold handleLogAction
    simp only [if_true]
  refine ⟨hn, hn2, hi, hi2, ?_, ?_, ?_, ?_, ?_, ?_⟩
  · rw [hn, List.length_take]; omega
  · rw [hi, List.length_take]; omega
  · rw [hn]; rfl
  · rw [hi]; rfl
  · intro h
    rw [hn]
    exact List.take_of_length_le (by rw [List.length_cons]; omega)
  · intro h
    rw [hi]
    exact List.take_of_length_le (by rw [List.length_cons]; omega)



/-! ## Keyword matcher -/

theorem keywordPass1_eq_find (keywords : List Str) (buttons : List Control) :
    keywordPass1 keywords buttons = buttons.find? (exactKeywordHit keywords) := by
  induction buttons with
  | nil => rfl
  | cons button rest ih =>
    unfold keywordPass1
    dsimp only
    by_cases hv : isVisible button.box = true
    · by_cases hx : hasExcludedKeyword (normalize button.textContent) = true
      · have hp : exactKeywordHit keywords button = false := by
          unfold exactKeywordHit
          rw [hx]; simp
        rw [List.find?_cons_of_neg _ (by rw [hp]; decide)]
        simp only [hv, hx, Bool.not_true, Bool.false_eq_true, if_false, if_true]
        exact ih
      · have hx2 : hasExcludedKeyword (normalize button.textContent) = false := by
          cases h : hasExcludedKeyword (normalize button.textContent)
          · rfl
          · exact absurd h hx
        by_cases hk : keywords.any (fun keyword =>
            normalize button.textContent = normalize keyword ||
            normalize (button.ariaLabel.getD []) = normalize keyword) = true
        · have hp : exactKeywordHit keywords button = true := by
            unfold exactKeywordHit
            rw [hv, hx2, hk]; rfl
          rw [List.find?_cons_of_pos _ hp]
          simp only [hv, hx2, Bool.not_true, Bool.false_eq_true, if_false]
          rw [if_pos hk]
        · have hp : exactKeywordHit keywords button = false := by
            unfold exactKeywordHit
            cases h : keywords.any (fun keyword =>
              normalize button.textContent = normalize keyword ||
              normalize (button.ariaLabel.getD []) = normalize keyword)
            · simp
            · exact absurd h hk
          rw [List.find?_cons_of_neg _ (by rw [hp]; decide)]
          simp only [hv, hx2, Bool.not_true, Bool.false_eq_true, if_false]
          rw [if_neg hk]
          exact ih
    · have hv2 : isVisible button.box = false := by
        cases h : isVisible button.box
        · rfl
        · exact absurd h hv
      have hp : exactKeywordHit keywords button = false := by
        unfold exactKeywordHit
        rw [hv2]; simp
      rw [List.find?_cons_of_neg _ (by rw [hp]; decide)]
      simp only [hv2, Bool.not_false, if_true]
      exact ih

theorem keywordPass2_sound (keywords : List Str) (buttons : List Control) (b : Control)
    (h : keywordPass2 keywords buttons = some b) :
    b ∈ buttons ∧ isVisible b.box = true ∧
      hasExcludedKeyword (normalize b.textContent) = false := by
  induction buttons with
  | nil => exact absurd h (by simp [keywordPass2])
  | cons button rest ih =>
    unfold keywordPass2 at h
    dsimp only at h
    split at h
    · obtain ⟨h1, h2⟩ := ih h
      exact ⟨List.mem_cons_of_mem _ h1, h2⟩
    · rename_i hv
      split at h
      · obtain ⟨h1, h2⟩ := ih h
        exact ⟨List.mem_cons_of_mem _ h1, h2⟩
      · rename_i hx
        split at h
        · have hb : button = b := Option.some.inj h
          subst hb
          refine ⟨List.mem_cons_self _ _, ?_, ?_⟩
          · simpa using hv
          · simpa using hx
        · obtain ⟨h1, h2⟩ := ih h
          exact ⟨List.mem_cons_of_mem _ h1, h2⟩

theorem keywordPass3_sound (keywords : List Str) (buttons : List Control) (b : Control)
    (h : keywordPass3 keywords buttons = some b) :
    b ∈ buttons ∧ isVisible b.box = true ∧
      hasExcludedKeyword (normalize b.textContent) = false := by
  induction buttons with
  | nil => exact absurd h (by simp [keywordPass3])
  | cons button rest ih =>
    unfold keywordPass3 at h
    dsimp only at h
    split at h
    · obtain ⟨h1, h2⟩ := ih h
      exact ⟨List.mem_cons_of_mem _ h1, h2⟩
    · rename_i hv
      split at h
      · obtain ⟨h1, h2⟩ := ih h
        exact ⟨List.mem_cons_of_mem _ h1, h2⟩
      · rename_i hx
        split at h
        · have hb : button = b := Option.some.inj h
          subst hb
          refine ⟨List.mem_cons_self _ _, ?_, ?_⟩
          · simpa using hv
          · unfold hasExcludedKeyword
            rw [List.any_eq_false]
            intro kw hkw hin
            apply hx
            rw [List.any_eq_true]
            exact ⟨kw, hkw, by rw [hin]; rfl⟩
        · obtain ⟨h1, h2⟩ := ih h
          exact ⟨List.mem_cons_of_mem _ h1, h2⟩

theorem keywordPass4_sound (keywords : List Str) (buttons : List Control) (b : Control)
    (h : keywordPass4 keywords buttons = some b) :
    b ∈ buttons ∧ isVisible b.box = true := by
  induction buttons with
  | nil => exact absurd h (by simp [keywordPass4])
  | cons button rest ih =>
    unfold keywordPass4 at h
    dsimp only at h
    split at h
    · obtain ⟨h1, h2⟩ := ih h
      exact ⟨List.mem_cons_of_mem _ h1, h2⟩
    · rename_i hv
      split at h
      · have hb : button = b := Option.some.inj h
        subst hb
        exact ⟨List.mem_cons_self _ _, by simpa using hv⟩
      · obtain ⟨h1, h2⟩ := ih h
        exact ⟨List.mem_cons_of_mem _ h1, h2⟩

/-- The result of `findButtonByKeywords` comes from one of its passes. -/
theorem findButtonByKeywords_source (buttons : List Control) (keywords : List Str)
    (b : Control) (h : findButtonByKeywords buttons keywords = some b) :
    keywordPass1 keywords buttons = some b ∨ keywordPass2 keywords buttons = some b ∨
    keywordPass3 keywords buttons = some b ∨ keywordPass4 keywords buttons = some b := by
  unfold findButtonByKeywords at h
  split at h
  · rename_i b1 h1
    exact Or.inl (h1.trans h)
  · split at h
    · rename_i b2 h2
      exact Or.inr (Or.inl (h2.trans h))
    · split at h
      · rename_i b3 h3
        exact Or.inr (Or.inr (Or.inl (h3.trans h)))
      · exact Or.inr (Or.inr (Or.inr h))

/-- C22 (failing input): the only control is a visible link with the text
`Facebook`, whose normalised text contains the exclusion keyword `facebook`.
Passes 1 to 3 skip it; pass 4 has no exclusion test and finds the word `ok` of
the accept keywords in it, so `findButtonByKeywords` returns the link. -/
theorem findButtonByKeywords_returns_excluded :
    hasExcludedKeyword (normalize (plainButton 1 "Facebook").textContent) = true ∧
    keywordPass1 BANNER_KEYWORDS.acceptButtons [plainButton 1 "Facebook"] = none ∧
    keywordPass2 BANNER_KEYWORDS.acceptButtons [plainButton 1 "Facebook"] = none ∧
    keywordPass3 BANNER_KEYWORDS.acceptButtons [plainButton 1 "Facebook"] = none ∧
    keywordPass4 BANNER_KEYWORDS.acceptButtons [plainButton 1 "Facebook"] =
      some (plainButton 1 "Facebook") ∧
    findButtonByKeywords [plainButton 1 "Facebook"] BANNER_KEYWORDS.acceptButtons =
      some (plainButton 1 "Facebook") := by
  decide

/-- C27: `findButtonByKeywords` returns either nothing or a visible member of
the given list; when some visible control whose normalised text has no
exclusion keyword has normalised text or accessible label equal to a
normalised keyword, the result is the first such control of the list, also
when an earlier control starts with or contains a keyword. -/
theorem findButtonByKeywords_exact_first (buttons : List Control) (keywords : List Str) :
    (∀ b : Control, findButtonByKeywords buttons keywords = some b →
      b ∈ buttons ∧ isVisible b.box = true) ∧
    ((∃ b ∈ buttons, exactKeywordHit keywords b = true) →
      findButtonByKeywords buttons keywords = buttons.find? (exactKeywordHit keywords) ∧
      (buttons.find? (exactKeywordHit keywords)).isSome = true) ∧
    findButtonByKeywords [plainButton 1 "Accept and go on", plainButton 2 "Accept"]
      BANNER_KEYWORDS.acceptButtons = some (plainButton 2 "Accept") := by
  refine ⟨?_, ?_, by decide⟩
  · intro b h
    rcases findButtonByKeywords_source buttons keywords b h with h1 | h2 | h3 | h4
    · rw [keywordPass1_eq_find] at h1
      have hp := List.find?_some h1
      unfold exactKeywordHit at hp
      simp only [Bool.and_eq_true] at hp
      exact ⟨List.mem_of_find?_eq_some h1, hp.1.1⟩
    · exact ⟨(keywordPass2_sound keywords buttons b h2).1,
        (keywordPass2_sound keywords buttons b h2).2.1⟩
    · exact ⟨(keywordPass3_sound keywords buttons b h3).1,
        (keywordPass3_sound keywords buttons b h3).2.1⟩
    · exact keywordPass4_sound keywords buttons b h4
  · rintro ⟨b, hb, hhit⟩
    have hsome : (buttons.find? (exactKeywordHit keywords)).isSome = true := by
      rw [List.find?_isSome]
      exact ⟨b, hb, hhit⟩
    refine ⟨?_, hsome⟩
    unfold findButtonByKeywords
    rw [keywordPass1_eq_find]
    cases hf : buttons.find? (exactKeywordHit keywords) with
    | none => rw [hf] at hsome; exact absurd hsome (by decide)
    | some c => rfl

/-! ## Prompt locator -/

/-- A text has at least as many code units as characters. -/
theorem length_le_utf16Length (s : Str) : s.length ≤ utf16Length s := by
  induction s with
  | nil => exact Nat.le_refl _
  | cons c cs ih =>
    unfold utf16Length at ih ⊢
    rw [List.map_cons, List.sum_cons, List.length_cons]
    by_cases hc : c.toNat < 65536
    · rw [if_pos hc]; omega
    · rw [if_neg hc]; omega

/-- On text of the Basic Multilingual Plane, ASCII text in particular, the code
units are the characters. -/
theorem utf16Length_of_bmp (s : Str) (h : ∀ c ∈ s, c.toNat < 65536) :
    utf16Length s = s.length := by
  induction s with
  | nil => rfl
  | cons c cs ih =>
    have hcs := ih (fun d hd => h d (List.mem_cons_of_mem _ hd))
    unfold utf16Length at hcs ⊢
    rw [List.map_cons, List.sum_cons, List.length_cons, if_pos (h c (List.mem_cons_self _ _)),
      hcs]
    omega

theorem isLikelyBanner_text (innerWidth : ℚ) (element : Element)
    (h : isLikelyBanner innerWidth element = true) :
    20 ≤ utf16Length element.lowerText ∧
    BANNER_KEYWORDS.containers.any (fun keyword =>
      includes element.lowerText keyword ||
      includes element.lowerHTML keyword) = true := by
  unfold isLikelyBanner at h
  dsimp only at h
  split at h
  · exact absurd h (by decide)
  · split at h
    · exact absurd h (by decide)
    · split at h
      · exact absurd h (by decide)
      · split at h
        · exact absurd h (by decide)
        · rename_i hkw
          split at h
          · exact absurd h (by decide)
          · rename_i hlen
            refine ⟨?_, ?_⟩
            · omega
            · rcases Bool.eq_false_or_eq_true (BANNER_KEYWORDS.containers.any (fun keyword =>
                includes element.lowerText keyword ||
                includes element.lowerHTML keyword)) with ht | hf
              · exact ht
              · exact absurd (by rw [hf]; rfl) hkw

/-- C26 (as amended): every element accepted by `isLikelyBanner` has a
lower-cased text (`textContent.toLowerCase()`) of at least 20 UTF-16 code
units, and a privacy keyword occurs in its lower-cased text or in its
lower-cased inner markup (`innerHTML.toLowerCase()`); an element with a privacy
keyword in neither, and an element whose lower-cased text has fewer than 20
code units, is rejected. -/
theorem isLikelyBanner_keyword_and_length (innerWidth : ℚ) (element : Element) :
    (isLikelyBanner innerWidth element = true →
      20 ≤ utf16Length element.lowerText ∧
      ∃ keyword ∈ BANNER_KEYWORDS.containers,
        includes element.lowerText keyword = true ∨
        includes element.lowerHTML keyword = true) ∧
    ((∀ keyword ∈ BANNER_KEYWORDS.containers,
        includes element.lowerText keyword = false ∧
        includes element.lowerHTML keyword = false) →
      isLikelyBanner innerWidth element = false) ∧
    (utf16Length element.lowerText < 20 → isLikelyBanner innerWidth element = false) := by
  have key : isLikelyBanner innerWidth element = true →
      20 ≤ utf16Length element.lowerText ∧
      ∃ keyword ∈ BANNER_KEYWORDS.containers,
        includes element.lowerText keyword = true ∨
        includes element.lowerHTML keyword = true := by
    intro h
    obtain ⟨hlen, hany⟩ := isLikelyBanner_text innerWidth element h
    refine ⟨hlen, ?_⟩
    rw [List.any_eq_true] at hany
    obtain ⟨kw, hmem, hk⟩ := hany
    rw [Bool.or_eq_true] at hk
    exact ⟨kw, hmem, hk⟩
  refine ⟨key, ?_, ?_⟩
  · intro hnone
    cases hb : isLikelyBanner innerWidth element with
    | false => rfl
    | true =>
      obtain ⟨_, kw, hmem, hk⟩ := key hb
      obtain ⟨h1, h2⟩ := hnone kw hmem
      rw [h1, h2] at hk
      rcases hk with hk | hk <;> exact absurd hk (by decide)
  · intro hshort
    cases hb : isLikelyBanner innerWidth element with
    | false => rfl
    | true =>
      have := (key hb).1
      omega

/-- C26 (counterexample): the text of the first element, `We value your
choices. Accept all`, contains no privacy keyword; its inner markup has the
class name `cookie-text`; `isLikelyBanner` accepts the element, and rejects it
without that class name. The text of the second element, `İzin cookies Accept`,
has 19 characters; its lower-cased text has 20 code units, and
`isLikelyBanner` accepts it. -/
theorem isLikelyBanner_accepts_markup_keyword :
    BANNER_KEYWORDS.containers.any (fun keyword =>
      includes (toLowerCase "We value your choices. Accept all".toList) keyword) = false ∧
    isLikelyBanner 1280
      (candidateWith "box" "We value your choices. Accept all"
        "<p class=\"cookie-text\">We value your choices.</p><button>Accept all</button>")
      = true ∧
    isLikelyBanner 1280
      (candidateWith "box" "We value your choices. Accept all"
        "<p>We value your choices.</p><button>Accept all</button>") = false ∧
    dottedCapitalBanner.textContent.length = 19 ∧
    utf16Length dottedCapitalBanner.textContent = 19 ∧
    utf16Length dottedCapitalBanner.lowerText = 20 ∧
    isLikelyBanner 1280 dottedCapitalBanner = true := by
  decide!

theorem findGenericBanner_accepted (innerWidth : ℚ) (root : String → List Element)
    (el : Element) (h : findGenericBanner innerWidth root = some el) :
    isLikelyBanner innerWidth el = true := by
  unfold findGenericBanner at h
  obtain ⟨selector, _, hf⟩ := List.exists_of_findSome?_eq_some h
  exact List.find?_some hf

/-- C21 (as amended): an element returned by `findBannerElement` is either the
first match of a platform selector and visible (priority 1, which applies no
text test) or an element accepted by `isLikelyBanner`, whose lower-cased text
(`textContent.toLowerCase()`) has at least 20 UTF-16 code units. So when no
platform container is visible, no element whose lower-cased text has fewer
than 20 code units is returned. -/
theorem findBannerElement_text_length (page : Page) (el : Element)
    (h : findBannerElement page = some el) :
    ((∃ id ∈ platformIds, (page.querySelectorAll id).head? = some el ∧
        isVisible el.box = true) ∨
      (isLikelyBanner page.innerWidth el = true ∧ 20 ≤ utf16Length el.lowerText)) ∧
    (findPlatformBanner page = none → 20 ≤ utf16Length el.lowerText) := by
  have acc : ∀ e : Element, isLikelyBanner page.innerWidth e = true →
      isLikelyBanner page.innerWidth e = true ∧ 20 ≤ utf16Length e.lowerText :=
    fun e he => ⟨he, (isLikelyBanner_text page.innerWidth e he).1⟩
  unfold findBannerElement at h
  split at h
  · rename_i p hp
    have hpe : p = el := Option.some.inj h
    subst hpe
    refine ⟨Or.inl ?_, fun hn => absurd (hp.symm.trans hn) (by simp)⟩
    unfold findPlatformBanner at hp
    obtain ⟨id, hid, hf⟩ := List.exists_of_findSome?_eq_some hp
    refine ⟨id, hid, ?_⟩
    split at hf
    · rename_i e he
      split at hf
      · rename_i hv
        have hee : e = p := Option.some.inj hf
        subst hee
        exact ⟨he, hv⟩
      · exact absurd hf (by simp)
    · exact absurd hf (by simp)
  · have rest : isLikelyBanner page.innerWidth el = true := by
      split at h
      · rename_i g hg
        have hge : g = el := Option.some.inj h
        subst hge
        exact findGenericBanner_accepted _ _ _ hg
      · split at h
        · rename_i s hs
          have hse : s = el := Option.some.inj h
          subst hse
          obtain ⟨root, _, hf⟩ := List.exists_of_findSome?_eq_some hs
          exact findGenericBanner_accepted _ _ _ hf
        · dsimp only at h
          split at h
          · rename_i f hf
            have hfe : f = el := Option.some.inj h
            subst hfe
            have := List.find?_some hf
            rw [Bool.and_eq_true] at this
            exact this.2
          · have := List.find?_some h
            rw [Bool.and_eq_true] at this
            exact this.2
    exact ⟨Or.inr (acc el rest), fun _ => (acc el rest).2⟩

/-- C21 (witness): a fixed container with a 28-character text is found through
a generic selector; the same container with the 15-character text
`We use cookies!` is not, and the locator reports no candidate. -/
theorem findBannerElement_text_length_witness :
    20 ≤ utf16Length (candidateWith "cookie-bar" "We use cookies on this site."
      "We use cookies on this site.").lowerText ∧
    findBannerElement (pageWith "[id*=\"cookie\"]"
      (candidateWith "cookie-bar" "We use cookies!" "We use cookies!")) = none :=
  ⟨((findBannerElement_text_length
      (pageWith "[id*=\"cookie\"]"
        (candidateWith "cookie-bar" "We use cookies on this site."
          "We use cookies on this site."))
      (candidateWith "cookie-bar" "We use cookies on this site." "We use cookies on this site.")
      (by decide!)).2 (by decide!)),
    by decide!⟩

/-- C21 (counterexample): the page has a visible container matching
`#onetrust-banner-sdk` whose text `We use cookies!` has 15 characters;
`findBannerElement` returns it. On a page without a platform container, the
container with the 19-character text `İzin cookies Accept` is returned through
a generic selector, its lower-cased text having 20 code units. -/
theorem findBannerElement_returns_short_platform_banner :
    (candidateWith "onetrust-banner-sdk" "We use cookies!" "We use cookies!").textContent.length
      = 15 ∧
    utf16Length
      (candidateWith "onetrust-banner-sdk" "We use cookies!" "We use cookies!").lowerText
      = 15 ∧
    findBannerElement (pageWith "#onetrust-banner-sdk"
      (candidateWith "onetrust-banner-sdk" "We use cookies!" "We use cookies!")) =
      some (candidateWith "onetrust-banner-sdk" "We use cookies!" "We use cookies!") ∧
    dottedCapitalBanner.textContent.length = 19 ∧
    findPlatformBanner (pageWith "[id*=\"cookie\"]" dottedCapitalBanner) = none ∧
    findBannerElement (pageWith "[id*=\"cookie\"]" dottedCapitalBanner) =
      some dottedCapitalBanner := by
  decide!

/-! ## Prompt resolver -/

/-- A call of `safeClick` made when `hasActed` is set does nothing. -/
theorem safeClick_ignored (st : ResolverState) (button : Control) (method : String)
    (h : st.hasActed = true) : safeClick st button method = (st, none) := by
  unfold safeClick
  rw [if_pos h]

/-- Whatever `safeClick` performs, it performs with `hasActed` set. -/
theorem safeClick_flag (st : ResolverState) (button : Control) (method : String) :
    ∃ added : List Performed,
      (safeClick st button method).1.performed = st.performed ++ added ∧
      ∀ p ∈ added, p.hasActed = true := by
  unfold safeClick
  by_cases h : st.hasActed = true
  · rw [if_pos h]
    exact ⟨[], (List.append_nil _).symm, fun p hp => absurd hp (List.not_mem_nil p)⟩
  · rw [if_neg h]
    dsimp only
    by_cases hr : button.raises = true
    · rw [if_pos hr]
      refine ⟨_, rfl, ?_⟩
      intro p hp
      rw [List.mem_singleton] at hp
      rw [hp]
    · rw [if_neg hr]
      refine ⟨_, rfl, ?_⟩
      intro p hp
      rw [List.mem_singleton] at hp
      rw [hp]

theorem handleConsentToggles_trace (prefs : Prefs) (toggles : List Toggle)
    (flipped : List Nat) (st : ResolverState) :
    (handleConsentToggles prefs toggles flipped st).1 =
      ⟨st.hasActed, st.observerActive,
        st.performed ++ toggleClicks prefs toggles flipped st.hasActed⟩ ∧
    (handleConsentToggles prefs toggles flipped st).2.1 =
      (toggleClicks prefs toggles flipped st.hasActed).length := by
  induction toggles generalizing flipped st with
  | nil =>
    unfold handleConsentToggles toggleClicks
    simp only [List.append_nil, List.length_nil, and_self]
  | cons toggle rest ih =>
    unfold handleConsentToggles toggleClicks
    by_cases hn : toggleNeedsClick flipped toggle prefs = true
    · rw [if_pos hn, if_pos hn]
      dsimp only
      obtain ⟨h1, h2⟩ := ih (flipped ++ toggle.flips) ⟨st.hasActed, st.observerActive,
        st.performed ++ [⟨PageAction.toggleClick toggle.node, st.hasActed⟩]⟩
      rw [h1, h2]
      simp only [List.length_cons, List.append_assoc, List.singleton_append, and_self]
    · rw [if_neg hn, if_neg hn]
      exact ih flipped st

/-- The function `handleConsentToggles` performs toggle clicks only. -/
theorem toggleClicks_actions (prefs : Prefs) (toggles : List Toggle) (flipped : List Nat)
    (flag : Bool) :
    ∀ p ∈ toggleClicks prefs toggles flipped flag,
      ∃ toggle ∈ toggles, p = ⟨PageAction.toggleClick toggle.node, flag⟩ := by
  induction toggles generalizing flipped with
  | nil =>
    intro p hp
    unfold toggleClicks at hp
    exact absurd hp (List.not_mem_nil p)
  | cons toggle rest ih =>
    intro p hp
    unfold toggleClicks at hp
    by_cases hn : toggleNeedsClick flipped toggle prefs = true
    · rw [if_pos hn] at hp
      rcases List.mem_cons.mp hp with h | h
      · exact ⟨toggle, List.mem_cons_self _ _, h⟩
      · obtain ⟨t, ht, hpt⟩ := ih _ p h
        exact ⟨t, List.mem_cons_of_mem _ ht, hpt⟩
    · rw [if_neg hn] at hp
      obtain ⟨t, ht, hpt⟩ := ih _ p hp
      exact ⟨t, List.mem_cons_of_mem _ ht, hpt⟩

/-- What `handleMultiStepConsent` performs when it starts with `hasActed`
unset and the click on the manage control does not raise: the click on the
manage control, the toggle clicks, and a log when it reports success. No click
on the save control is among them. -/
theorem handleMultiStepConsent_trace (st : ResolverState) (page : Page) (banner : Element)
    (prefs : Prefs) (manageButton : Control)
    (hm : findButtonByKeywords banner.roleButtons BANNER_KEYWORDS.manageButtons =
      some manageButton)
    (hst : st.hasActed = false) (hr : manageButton.raises = false) :
    (handleMultiStepConsent st page banner prefs).1.performed =
      st.performed ++ [⟨PageAction.click manageButton.node "manage", true⟩] ++
        toggleClicks prefs page.toggles [] true ++
        (if (handleMultiStepConsent st page banner prefs).2 then
          [⟨PageAction.log "multi_step", true⟩] else []) := by
  unfold handleMultiStepConsent
  rw [hm]
  dsimp only
  have hs : (safeClick st manageButton "manage").1 =
      ⟨true, false, st.performed ++ [⟨PageAction.click manageButton.node "manage", true⟩]⟩ := by
    unfold safeClick
    rw [hst, hr]
    rfl
  rw [hs]
  obtain ⟨h1, h2⟩ := handleConsentToggles_trace prefs page.toggles []
    ⟨true, false, st.performed ++ [⟨PageAction.click manageButton.node "manage", true⟩]⟩
  rw [h1, h2]
  dsimp only
  by_cases hz : (toggleClicks prefs page.toggles [] true).length ≠ 0
  · rw [if_pos hz]
    cases hsave : findButtonByKeywords page.saveCandidates saveKeywords with
    | none =>
      dsimp only
      rw [if_neg (by decide), List.append_nil]
    | some saveButton =>
      dsimp only
      rw [safeClick_ignored _ saveButton "save_preferences" rfl]
      rfl
  · rw [if_neg hz]
    dsimp only
    rw [if_neg (by decide), List.append_nil]

/-- C23 (failing input): the preferences allow every category (safe mode off);
the page has one banner with an `Accept` button, no consent platform and no
manage control. `clickAppropriateButton` does nothing, yet the tick goes on to
hide the banner with CSS, sets `hasActed` and records the site cooldown. With
safe mode on, the same tick leaves the state as it was. -/
theorem checkForBanner_hides_when_all_allowed :
    detectConsentPlatform
      (bannerPage [plainButton 11 "Accept"] [plainButton 11 "Accept"] [] []) = none ∧
    findButtonByKeywords [plainButton 11 "Accept"] BANNER_KEYWORDS.manageButtons = none ∧
    clickAppropriateButton idleState
      (bannerPage [plainButton 11 "Accept"] [plainButton 11 "Accept"] [] [])
      (sampleBanner [plainButton 11 "Accept"] [plainButton 11 "Accept"]) allowAllPrefs =
      (idleState, none) ∧
    checkForBanner idleState
      (bannerPage [plainButton 11 "Accept"] [plainButton 11 "Accept"] [] []) allowAllPrefs =
      ⟨true, false,
        [⟨PageAction.hideStyle 10, false⟩, ⟨PageAction.log "css_hide", false⟩,
          ⟨PageAction.cooldown, true⟩]⟩ ∧
    checkForBanner idleState
      (bannerPage [plainButton 11 "Accept"] [plainButton 11 "Accept"] [] [])
      ⟨true, true, true, true, true, true⟩ = idleState := by
  decide!

/-- C24 (failing input): the banner has the manage control `Manage preferences`
(node 21); after the click the page shows one enabled analytics toggle (node 41)
and the control `Save` (node 31), which the save keywords find. With the
default preferences `handleMultiStepConsent` reports success, having clicked
the manage control and the toggle; the call of `safeClick` on the save control
finds `hasActed` set by the first click and does nothing. -/
theorem handleMultiStepConsent_save_not_clicked :
    findButtonByKeywords [plainButton 31 "Save"] saveKeywords = some (plainButton 31 "Save") ∧
    handleMultiStepConsent idleState
      (bannerPage [plainButton 21 "Manage preferences"] [plainButton 21 "Manage preferences"]
        [checkbox 41 "Analytics cookies" true] [plainButton 31 "Save"])
      (sampleBanner [plainButton 21 "Manage preferences"] [plainButton 21 "Manage preferences"])
      defaultPrefs =
      (⟨true, false,
        [⟨PageAction.click 21 "manage", true⟩, ⟨PageAction.toggleClick 41, true⟩,
          ⟨PageAction.log "multi_step", true⟩]⟩, true) ∧
    safeClick
      ⟨true, false, [⟨PageAction.click 21 "manage", true⟩, ⟨PageAction.toggleClick 41, true⟩]⟩
      (plainButton 31 "Save") "save_preferences" =
      (⟨true, false,
        [⟨PageAction.click 21 "manage", true⟩, ⟨PageAction.toggleClick 41, true⟩]⟩, none) := by
  decide!

/-- C25 (failing input): default preferences, safe mode off; the banner has
only a `Reject all` button, which neither the manage, nor the accept, nor the
dismiss keywords find. The tick ends in CSS suppression, and the hiding style
is inserted while `hasActed` is still false; the flag is set afterwards. On the
click path (an `Accept` button) the click is performed with the flag set. -/
theorem checkForBanner_hides_before_flag :
    checkForBanner idleState
      (bannerPage [plainButton 11 "Reject all"] [plainButton 11 "Reject all"] [] [])
      defaultPrefs =
      ⟨true, false,
        [⟨PageAction.hideStyle 10, false⟩, ⟨PageAction.log "css_hide", false⟩,
          ⟨PageAction.cooldown, true⟩]⟩ ∧
    checkForBanner idleState
      (bannerPage [plainButton 11 "Accept"] [plainButton 11 "Accept"] [] []) defaultPrefs =
      ⟨true, false,
        [⟨PageAction.click 11 "accept_all", true⟩, ⟨PageAction.cooldown, true⟩,
          ⟨PageAction.log "accept_all", true⟩]⟩ := by
  decide!

/-! ## Blocklist key, prompt categories, toggle labels -/

/-- A call of `deleteCookieViaAPI` that returns true leaves the key built from
its target domain in the blocklist. -/
theorem deleteCookieViaAPI_true_blocks (st : BgState) (store : CookieStore) (now : Int)
    (cookieName url domain : Str)
    (h : (deleteCookieViaAPI st store now cookieName url domain).1 = true) :
    blockKey domain cookieName ∈
      (deleteCookieViaAPI st store now cookieName url domain).2.1.blockedCookies := by
  unfold deleteCookieViaAPI at h ⊢
  dsimp only at h ⊢
  by_cases hb : isBlocked st now (blockKey domain cookieName) = true
  · rw [if_pos hb] at h
    exact absurd h Bool.false_ne_true
  · rw [if_neg hb] at h ⊢
    by_cases hrej : store.getAllRejects = true
    · rw [if_pos hrej] at h
      exact absurd h Bool.false_ne_true
    · rw [if_neg hrej] at h ⊢
      by_cases hemp : (matchingCookies store cookieName domain).isEmpty = true
      · rw [if_pos hemp] at h
        exact absurd h Bool.false_ne_true
      · rw [if_neg hemp] at h ⊢
        by_cases hpos : (removeLoop store 0 (matchingCookies store cookieName domain)).1 > 0
        · rw [if_pos hpos]
          exact mem_setAdd _ _
        · rw [if_neg hpos] at h
          exact absurd h Bool.false_ne_true

/-- After a call of `deleteCookieViaAPI` that returned true, the listener
removes a created cookie of the same name whose domain, leading dot stripped,
is the target domain of the call. -/
theorem onCookieChanged_after_delete (st : BgState) (store : CookieStore) (now : Int)
    (cookieName url domain : Str) (cookie : Cookie)
    (h : (deleteCookieViaAPI st store now cookieName url domain).1 = true)
    (hname : cookie.name = cookieName) (hdom : stripLeadingDot cookie.domain = domain) :
    onCookieChanged (deleteCookieViaAPI st store now cookieName url domain).2.1
      ⟨false, some cookie⟩ = [StorageOp.remove (removeDetailsOf cookie)] := by
  have hk := deleteCookieViaAPI_true_blocks st store now cookieName url domain h
  unfold onCookieChanged
  dsimp only
  rw [hdom, hname, if_pos (by decide), if_pos hk]
  unfold removeDetailsOf
  dsimp only
  rw [hdom, hname]

/-- C28 (failing input): the store holds `_ga` on `.example.com`; the call for
the target `www.example.com` matches it, removes it and returns true, and the
blocklist then holds only the key `www.example.com:_ga`. On the creation event
for `_ga` on `.example.com` the listener builds the key `example.com:_ga`,
which is not in the blocklist, and issues no removal. -/
theorem onCookieChanged_misses_parent_domain_cookie :
    matchingCookies
      ⟨[⟨"_ga".toList, ".example.com".toList, "/".toList, false, "0".toList⟩], false,
        fun _ _ => RemoveOutcome.removed⟩
      "_ga".toList "www.example.com".toList =
      [⟨"_ga".toList, ".example.com".toList, "/".toList, false, "0".toList⟩] ∧
    deleteCookieViaAPI freshState
      ⟨[⟨"_ga".toList, ".example.com".toList, "/".toList, false, "0".toList⟩], false,
        fun _ _ => RemoveOutcome.removed⟩
      1000 "_ga".toList "https://www.example.com/".toList "www.example.com".toList =
      (true,
        ⟨["www.example.com:_ga".toList], [("www.example.com:_ga".toList, ⟨1000, 1⟩)]⟩,
        [StorageOp.getAll "_ga".toList,
          StorageOp.remove ⟨"http://example.com/".toList, "_ga".toList, "0".toList⟩]) ∧
    blockKey (stripLeadingDot ".example.com".toList) "_ga".toList = "example.com:_ga".toList ∧
    onCookieChanged
      (deleteCookieViaAPI freshState
        ⟨[⟨"_ga".toList, ".example.com".toList, "/".toList, false, "0".toList⟩], false,
          fun _ _ => RemoveOutcome.removed⟩
        1000 "_ga".toList "https://www.example.com/".toList "www.example.com".toList).2.1
      ⟨false, some ⟨"_ga".toList, ".example.com".toList, "/".toList, false, "0".toList⟩⟩ =
      [] := by
  decide

/-- Every text that occurs in `promptTail` occurs in the prompt, whatever the
cookie. -/
theorem includes_classifierPrompt (cookieName cookieDomain : Str) (cookieValue : Option Str)
    (pat : Str) (h : includes promptTail pat = true) :
    includes (classifierPrompt cookieName cookieDomain cookieValue) pat = true := by
  rw [includes_iff] at h ⊢
  unfold classifierPrompt
  exact List.IsInfix.trans h (List.suffix_append _ _).isInfix

set_option maxRecDepth 100000 in
/-- C29 (failing input): the prompt lists the four names essential, analytics,
personalisation and advertisement as the permitted categories, for every
cookie. The validation keeps `essential` and `analytics`; it does not accept
`personalisation` or `advertisement`, and an answer with category
`advertisement` comes back from `classifyWithAI` with category
`personalization`. -/
theorem validatedCategory_replaces_offered_names :
    (∀ (cookieName cookieDomain : Str) (cookieValue : Option Str),
      ∀ name ∈ promptCategories,
        includes (classifierPrompt cookieName cookieDomain cookieValue)
          ("\n- ".toList ++ name.toList ++ [' ']) = true) ∧
    validatedCategory (JsVal.str "essential".toList) = "essential" ∧
    validatedCategory (JsVal.str "analytics".toList) = "analytics" ∧
    "personalisation" ∉ validCategories ∧
    "advertisement" ∉ validCategories ∧
    validatedCategory (JsVal.str "personalisation".toList) = "personalization" ∧
    validatedCategory (JsVal.str "advertisement".toList) = "personalization" ∧
    (classifyWithAI
      (fun _ => FetchOutcome.okBody (Except.ok (ParsedResponse.object
        ⟨JsVal.str "advertisement".toList, JsNum.fin 0.9,
          "retargeting identifier".toList⟩)))
      true 0 0).result.category = some "personalization" := by
  refine ⟨?_, by decide, by decide, by decide, by decide, by decide, by decide, ?_⟩
  · intro cookieName cookieDomain cookieValue name hname
    apply includes_classifierPrompt
    unfold promptCategories at hname
    simp only [List.mem_cons, List.mem_singleton, List.not_mem_nil, or_false] at hname
    rcases hname with h | h | h | h <;> rw [h] <;> decide
  · rw [classifyWithAI_step]
    decide

/-- A label that contains none of the words tested before the essential terms
and contains an essential term is classified as essential. -/
theorem classifyToggleByLabel_of_essential (labelText : Str)
    (h1 : (includes labelText "analytics".toList || includes labelText "statistics".toList ||
      includes labelText "measurement".toList) = false)
    (h2 : (includes labelText "advertising".toList || includes labelText "marketing".toList ||
      includes labelText "ad".toList) = false)
    (h3 : (includes labelText "personalization".toList ||
      includes labelText "functional".toList || includes labelText "preference".toList) = false)
    (h4 : (includes labelText "necessary".toList || includes labelText "essential".toList ||
      includes labelText "required".toList) = true) :
    classifyToggleByLabel labelText = some "essential" := by
  unfold classifyToggleByLabel
  rw [h1, h2, h3, h4]
  rfl

/-- A toggle classified as essential is clicked exactly when it is not
enabled at the moment the loop reads it. -/
theorem toggleNeedsClick_essential (flipped : List Nat) (toggle : Toggle) (prefs : Prefs)
    (h : classifyToggleByLabel (getToggleLabel toggle) = some "essential") :
    toggleNeedsClick flipped toggle prefs =
      !(checkedNow flipped toggle || decide (toggle.ariaChecked = some "true".toList)) := by
  unfold toggleNeedsClick
  rw [h]
  dsimp only
  have hallow : shouldAllowCategory "essential" prefs = true := rfl
  rw [hallow]
  cases (checkedNow flipped toggle || decide (toggle.ariaChecked = some "true".toList)) <;> rfl

/-- C30 (failing input): with the default preferences, two dialogs. In the
first, the checked checkbox labelled `Necessary - read more` has the essential
term necessary in its label and none of the eight words; `read` contains `ad`,
so `classifyToggleByLabel` returns advertising and `handleConsentToggles`
clicks the checkbox, which leaves it unchecked. In the second, the markup
`switchMarkup` labelled `Strictly necessary`, every element is classified as
essential; the label and the slider have no property `checked`, so the loop
clicks the label (unchecking the box), then the box (checking it), then the
slider (unchecking it): the essential checkbox ends unchecked. -/
theorem handleConsentToggles_switches_essential_off :
    includes (getToggleLabel (checkbox 41 "Necessary - read more" true))
      "necessary".toList = true ∧
    (["analytics", "statistics", "measurement", "advertising", "marketing",
      "personalization", "functional", "preference"].all
      (fun word =>
        !includes (getToggleLabel (checkbox 41 "Necessary - read more" true))
          word.toList)) = true ∧
    classifyToggleByLabel (getToggleLabel (checkbox 41 "Necessary - read more" true)) =
      some "advertising" ∧
    handleConsentToggles defaultPrefs [checkbox 41 "Necessary - read more" true] []
      idleState =
      (⟨false, true, [⟨PageAction.toggleClick 41, false⟩]⟩, 1, [41]) ∧
    checkedNow [41] (checkbox 41 "Necessary - read more" true) = false ∧
    (switchMarkup.all (fun toggle =>
      classifyToggleByLabel (getToggleLabel toggle) = some "essential")) = true ∧
    handleConsentToggles defaultPrefs switchMarkup [] idleState =
      (⟨false, true,
        [⟨PageAction.toggleClick 50, false⟩, ⟨PageAction.toggleClick 51, false⟩,
          ⟨PageAction.toggleClick 52, false⟩]⟩, 3, [51, 51, 51]) ∧
    checkedNow [] ⟨51, some "Strictly necessary".toList, some true, none, [51]⟩ = true ∧
    checkedNow [51, 51, 51] ⟨51, some "Strictly necessary".toList, some true, none, [51]⟩
      = false := by
  decide

end CookiePM
